import Mathlib

/-!
# Verification of the server-monitor session lifecycle engine

Shallow embedding of the session lifecycle engine and stats aggregation
ledger of the monitor repository (`session_manager.py`, `player_manager.py`,
`server_monitor.py`, `util.py`).  The SQLite database is modelled as lists of
rows; timestamps are integers (seconds); each Python function that reads and
writes the database becomes a pure Lean function from a `DB` state to a `DB`
state.  Runtime failures (lock contention, rollback paths) are out of scope:
the embedding gives the error-free execution of each operation, matching the
spec's treatment of the Record Store.

Conventions used throughout:
* SQL `UPDATE ... WHERE id = ?` keyed on a row id found via a unique column
  (e.g. `player_stats.steam_id UNIQUE`, `UNIQUE(player_id, session_id,
  team_id)` on `player_team_scores`) is modelled as a map over the rows
  matching that unique key, which coincides with the source on any database
  respecting the schema's uniqueness constraints.
* Python truthiness on ids (`if not session_id`) is modelled with `0` as the
  falsy id, since SQLite row ids are positive.
* The textual `end_time` sentinel `'[NULL]'` used by the source is folded
  into `Option`: `none` stands for both SQL NULL and the sentinel.
-/

namespace Monitor

/-- A row of the `game_sessions` table. -/
structure SessionRow where
  id : Nat
  server_id : Nat
  map_name : String
  start_time : Int
  end_time : Option Int
  max_players : Nat
  peak_player_count : Nat
  wave_text : Option String
  wave_number : Option Nat
  is_active : Bool
  team1_player_count : Nat
  team2_player_count : Nat
  session_result : Option String
  deriving Repr, DecidableEq

/-- A row of the `server_status` table. -/
structure ServerStatusRow where
  session_id : Nat
  timestamp : Int
  player_count : Nat
  wave_number : Option Nat
  deriving Repr, DecidableEq

/-- A row of the `player_records` table. -/
structure PlayerRecordRow where
  id : Nat
  session_id : Nat
  steam_id : String
  player_name : String
  team_id : Option Nat
  current_score : Int
  initial_score : Int
  highest_score : Int
  first_seen : Int
  last_seen : Int
  is_bot : Bool
  deriving Repr, DecidableEq

/-- A row of the `player_team_scores` table (a team "stint"). -/
structure StintRow where
  player_id : Nat
  session_id : Nat
  team_id : Nat
  initial_score : Int
  final_score : Int
  first_seen : Int
  last_updated : Int
  deriving Repr, DecidableEq

/-- A row of the `player_stats` cross-session aggregate table. -/
structure PlayerStatsRow where
  id : Nat
  steam_id : String
  player_name : String
  total_score : Int
  total_playtime_seconds : Int
  session_count : Nat
  last_updated : Int
  deriving Repr, DecidableEq

/-- A row of the `player_team_stats` per-team aggregate table. -/
structure PlayerTeamStatsRow where
  player_stats_id : Nat
  team_id : Nat
  team_name : String
  score : Int
  playtime_seconds : Int
  last_updated : Int
  deriving Repr, DecidableEq

/-- A row of the `player_team_changes` event log. -/
structure TeamChangeRow where
  player_id : Nat
  session_id : Nat
  old_team_id : Nat
  new_team_id : Nat
  timestamp : Int
  wave_number : Option Nat
  is_death : Bool
  is_redeem : Bool
  deriving Repr, DecidableEq

/-- A row of the `player_death_stats` aggregate table. -/
structure DeathStatsRow where
  steam_id : String
  player_name : String
  total_deaths : Nat
  waves_survived : Nat
  last_updated : Int
  deriving Repr, DecidableEq

/-- A row of the `player_redeem_stats` aggregate table. -/
structure RedeemStatsRow where
  steam_id : String
  player_name : String
  total_redeems : Nat
  last_updated : Int
  deriving Repr, DecidableEq

/-- A row of the `team_status` table. -/
structure TeamStatusRow where
  session_id : Nat
  timestamp : Int
  team_id : Nat
  team_name : String
  player_count : Nat
  total_score : Int
  deriving Repr, DecidableEq

/-- A row of the `wave_end_records` table. -/
structure WaveEndRow where
  id : Nat
  session_id : Nat
  wave_number : Nat
  timestamp : Int
  reason : String
  deriving Repr, DecidableEq

/-- A row of the `player_wave_scores` table. -/
structure PlayerWaveScoreRow where
  wave_end_id : Nat
  player_id : Nat
  steam_id : String
  player_name : String
  team_id : Option Nat
  score : Int
  is_bot : Bool
  deriving Repr, DecidableEq

/-- The database state: one list per table plus AUTOINCREMENT counters for
the tables whose generated row ids the code reads back (`lastrowid`). -/
structure DB where
  game_sessions : List SessionRow
  server_status : List ServerStatusRow
  player_records : List PlayerRecordRow
  player_team_scores : List StintRow
  player_stats : List PlayerStatsRow
  player_team_stats : List PlayerTeamStatsRow
  player_team_changes : List TeamChangeRow
  player_death_stats : List DeathStatsRow
  player_redeem_stats : List RedeemStatsRow
  team_status : List TeamStatusRow
  wave_end_records : List WaveEndRow
  player_wave_scores : List PlayerWaveScoreRow
  nextSessionId : Nat
  nextWaveEndId : Nat
  nextStatsId : Nat
  deriving Repr, DecidableEq

/-! ## Wave parser (`util.extract_wave_number`) -/

/-- Characters matched by the regex class `\s`. -/
def isSpaceChar (c : Char) : Bool :=
  c = ' ' ∨ c = '\t' ∨ c = '\n' ∨ c = '\r' ∨ c = '\x0b' ∨ c = '\x0c'

/-- Numeric value of a run of decimal digits (Python `int` on the match). -/
def digitsToNat (l : List Char) : Nat :=
  l.foldl (fun n c => 10 * n + (c.toNat - '0'.toNat)) 0

/-- Try to match the regex `Wave\s*(\d+)` (case-insensitively) at the head of
the character list, returning the captured number. -/
def matchWaveAt (l : List Char) : Option Nat :=
  match l with
  | c1 :: c2 :: c3 :: c4 :: rest =>
    if c1.toLower = 'w' ∧ c2.toLower = 'a' ∧ c3.toLower = 'v' ∧ c4.toLower = 'e' then
      let afterSpaces := rest.dropWhile isSpaceChar
      let digits := afterSpaces.takeWhile Char.isDigit
      if digits.isEmpty then none else some (digitsToNat digits)
    else none
  | _ => none

/-- `re.search(r'Wave\s*(\d+)', _, re.IGNORECASE)`: leftmost match. -/
def searchWave : List Char → Option Nat
  | [] => none
  | c :: rest =>
    match matchWaveAt (c :: rest) with
    | some n => some n
    | none => searchWave rest

/-- `re.findall(r'\d+', _)` restricted to its first element: the first
maximal run of digits, as a number. -/
def firstDigitRun : List Char → Option Nat
  | [] => none
  | c :: rest =>
    if c.isDigit then some (digitsToNat ((c :: rest).takeWhile Char.isDigit))
    else firstDigitRun rest

/-- `util.extract_wave_number`: parse a numeric wave index out of the
free-text wave indicator.  `none`/empty text parses to `none`. -/
def extract_wave_number (wave_text : Option String) : Option Nat :=
  match wave_text with
  | none => none
  | some t =>
    if t = "" then none
    else
      match searchWave t.toList with
      | some n => some n
      | none => firstDigitRun t.toList

/-! ## Query helpers (SQL `ORDER BY ... DESC LIMIT 1` and point lookups) -/

/-- Pick the row maximising `key` (SQL `ORDER BY key DESC LIMIT 1`); on ties
the earliest row in table order is kept. -/
def maxBy {α : Type} (key : α → Int) (l : List α) : Option α :=
  l.foldl (fun acc r =>
    match acc with
    | none => some r
    | some b => if key b < key r then some r else some b) none

/-- `SELECT ... FROM game_sessions WHERE server_id = ? AND is_active = 1
ORDER BY start_time DESC LIMIT 1`. -/
def latest_active_session (db : DB) (server_id : Nat) : Option SessionRow :=
  maxBy (·.start_time)
    (db.game_sessions.filter (fun r => r.server_id == server_id && r.is_active))

/-- `SELECT ... FROM game_sessions WHERE server_id = ? AND map_name = ? AND
is_active = 1 ORDER BY start_time DESC LIMIT 1`. -/
def latest_active_session_on_map (db : DB) (server_id : Nat) (map_name : String) :
    Option SessionRow :=
  maxBy (·.start_time)
    (db.game_sessions.filter
      (fun r => r.server_id == server_id && r.map_name == map_name && r.is_active))

/-- `SELECT timestamp FROM server_status WHERE session_id = ? AND
player_count > 0 ORDER BY timestamp DESC LIMIT 1`. -/
def last_active_status (db : DB) (session_id : Nat) : Option ServerStatusRow :=
  maxBy (·.timestamp)
    (db.server_status.filter (fun r => r.session_id == session_id && 0 < r.player_count))

/-- `SELECT COUNT(*) FROM server_status WHERE session_id = ? AND
wave_number = ?`. -/
def same_wave_count (db : DB) (session_id : Nat) (wave : Nat) : Nat :=
  (db.server_status.filter
    (fun r => r.session_id == session_id && r.wave_number == some wave)).length

/-- `SELECT ... FROM game_sessions WHERE id = ?` (first row). -/
def sessionById (db : DB) (id : Nat) : Option SessionRow :=
  db.game_sessions.find? (fun r => r.id == id)

/-- `SELECT ... FROM player_stats WHERE steam_id = ?` (first row;
`steam_id` is UNIQUE in the schema). -/
def statsBySteam (db : DB) (steam_id : String) : Option PlayerStatsRow :=
  db.player_stats.find? (fun s => s.steam_id == steam_id)

/-- The stints of `player_id` within `session_id`
(`SELECT ... FROM player_team_scores WHERE player_id = ? AND session_id = ?`). -/
def stintsFor (db : DB) (player_id session_id : Nat) : List StintRow :=
  db.player_team_scores.filter
    (fun ts => ts.player_id == player_id && ts.session_id == session_id)

/-- `SELECT team_name FROM team_status WHERE session_id = ? AND team_id = ?
ORDER BY timestamp DESC LIMIT 1`. -/
def latest_team_status (db : DB) (session_id team_id : Nat) : Option TeamStatusRow :=
  maxBy (·.timestamp)
    (db.team_status.filter (fun r => r.session_id == session_id && r.team_id == team_id))

/-! ## Session row mutations -/

/-- `UPDATE game_sessions SET is_active = 0, end_time = ?, session_result = ?
WHERE id = ?`. -/
def close_session_result (db : DB) (session_id : Nat) (now : Int) (result : String) : DB :=
  { db with game_sessions := db.game_sessions.map (fun r =>
      if r.id == session_id then
        { r with is_active := false, end_time := some now, session_result := some result }
      else r) }

/-- `UPDATE game_sessions SET is_active = 0, end_time = ? WHERE id = ?`
(the generic close in the new-session block: it does not touch
`session_result`). -/
def close_session_plain (db : DB) (session_id : Nat) (now : Int) : DB :=
  { db with game_sessions := db.game_sessions.map (fun r =>
      if r.id == session_id then
        { r with is_active := false, end_time := some now }
      else r) }

/-! ## `session_manager.save_wave_end_snapshot` -/

/-- `session_manager.save_wave_end_snapshot(session_id, wave_number, reason)`:
guards against a falsy session id; maps an unknown wave number to `0`,
rewriting the reason to `"Game Start"` unless it is `"Timeout"` or
`"Server Restart"`; does nothing if a record for the (session, wave, reason)
triple already exists; otherwise inserts one `wave_end_records` row and one
`player_wave_scores` row per player record of the session. -/
def save_wave_end_snapshot (db : DB) (session_id : Nat) (wave_number : Option Nat)
    (reason : String) (now : Int) : DB :=
  if session_id = 0 then db
  else
    let wn : Nat := wave_number.getD 0
    let rsn : String :=
      match wave_number with
      | none => if reason = "Timeout" ∨ reason = "Server Restart" then reason else "Game Start"
      | some _ => reason
    if db.wave_end_records.any
        (fun r => r.session_id == session_id && r.wave_number == wn && r.reason == rsn) then
      db
    else
      let weid := db.nextWaveEndId
      let players := db.player_records.filter (fun p => p.session_id == session_id)
      let pws := players.map (fun p =>
        PlayerWaveScoreRow.mk weid p.id p.steam_id p.player_name p.team_id p.current_score p.is_bot)
      { db with
        wave_end_records := db.wave_end_records ++ [⟨weid, session_id, wn, now, rsn⟩],
        player_wave_scores := db.player_wave_scores ++ pws,
        nextWaveEndId := weid + 1 }

/-! ## `session_manager.determine_session_result` -/

/-- `session_manager.determine_session_result(session_id, wave_number)`:
reads `team1_player_count` (the tracked survivor team occupancy) of the
session row and classifies the outcome. -/
def determine_session_result (db : DB) (session_id : Nat) (wave_number : Option Nat) :
    String :=
  match sessionById db session_id with
  | some s =>
    match wave_number with
    | none => "Unknown Result - Missing Wave Data"
    | some w =>
      if w = 6 ∧ 0 < s.team1_player_count then "Win - Completed Wave 6"
      else if 6 ≤ w then "Loss - No Survivors"
      else "Loss - Ended on Wave " ++ toString w
  | none => "Unknown Result"

/-! ## `player_manager.update_player_playtimes` (the session-close fold) -/

/-- Per-session score earned, exactly as the fold computes it: the sum of
`final_score - initial_score` over the player's stints in the session, with
the raw current score as fallback when the player has no stint at all. -/
def session_score_earned (db : DB) (p : PlayerRecordRow) (session_id : Nat) : Int :=
  let team_scores := stintsFor db p.id session_id
  if team_scores.isEmpty then p.current_score
  else (team_scores.map (fun ts => ts.final_score - ts.initial_score)).sum

/-- Stint refresh performed at fold time: `UPDATE player_team_scores SET
final_score = ?, last_updated = ? WHERE id = ?` on the stint found for the
player's current team (the row is addressed here by its UNIQUE
`(player_id, session_id, team_id)` key), or `INSERT` with `initial_score = 0`
when no such stint exists. -/
def refresh_current_stint (db : DB) (session_id : Nat) (end_time : Int)
    (p : PlayerRecordRow) : DB :=
  match p.team_id with
  | none => db
  | some ct =>
    if db.player_team_scores.any (fun ts =>
        ts.player_id == p.id && ts.session_id == session_id && ts.team_id == ct) then
      { db with player_team_scores := db.player_team_scores.map (fun ts =>
          if ts.player_id == p.id && ts.session_id == session_id && ts.team_id == ct then
            { ts with final_score := p.current_score, last_updated := end_time }
          else ts) }
    else
      { db with player_team_scores := db.player_team_scores ++
          [⟨p.id, session_id, ct, 0, p.current_score, p.first_seen, end_time⟩] }

/-- Upsert into `player_stats` (the row is addressed by its UNIQUE
`steam_id`), returning the affected row's id for the per-team stats that
follow. -/
def upsert_player_stats (db : DB) (p : PlayerRecordRow)
    (total_session_score playtime_seconds : Int) (end_time : Int) : DB × Nat :=
  match statsBySteam db p.steam_id with
  | some ps =>
    ({ db with player_stats := db.player_stats.map (fun s =>
        if s.steam_id == p.steam_id then
          { s with
            player_name := p.player_name,
            total_score := ps.total_score + total_session_score,
            total_playtime_seconds := ps.total_playtime_seconds + playtime_seconds,
            session_count := ps.session_count + 1,
            last_updated := end_time }
        else s) }, ps.id)
  | none =>
    ({ db with
        player_stats := db.player_stats ++
          [⟨db.nextStatsId, p.steam_id, p.player_name, total_session_score,
            playtime_seconds, 1, end_time⟩],
        nextStatsId := db.nextStatsId + 1 }, db.nextStatsId)

/-- Upsert one stint's contribution into `player_team_stats` (addressed by
its UNIQUE `(player_stats_id, team_id)` key), distributing the playtime as
`int(playtime_seconds / len(team_scores))`, which truncates toward zero. -/
def upsert_team_stat (db : DB) (session_id : Nat) (end_time : Int) (stats_id : Nat)
    (playtime_seconds : Int) (nStints : Nat) (ts : StintRow) : DB :=
  let team_name :=
    match latest_team_status db session_id ts.team_id with
    | some row => row.team_name
    | none => "Team " ++ toString ts.team_id
  let score_earned := ts.final_score - ts.initial_score
  let team_playtime := Int.tdiv playtime_seconds (nStints : Int)
  match db.player_team_stats.find? (fun x =>
      x.player_stats_id == stats_id && x.team_id == ts.team_id) with
  | some existing =>
    { db with player_team_stats := db.player_team_stats.map (fun x =>
        if x.player_stats_id == stats_id && x.team_id == ts.team_id then
          { x with
            score := existing.score + score_earned,
            playtime_seconds := existing.playtime_seconds + team_playtime,
            team_name := team_name,
            last_updated := end_time }
        else x) }
  | none =>
    { db with player_team_stats := db.player_team_stats ++
        [⟨stats_id, ts.team_id, team_name, score_earned, team_playtime, end_time⟩] }

/-- One iteration of the per-player loop of
`player_manager.update_player_playtimes`: compute playtime and session score
(from the stints as stored at this point), refresh the current team's stint,
upsert `player_stats`, then upsert `player_team_stats` for every stint
(re-queried after the refresh). -/
def process_player_playtime (db : DB) (session_id : Nat) (end_time : Int)
    (p : PlayerRecordRow) : DB :=
  if p.is_bot then db
  else
    let playtime_seconds : Int := p.last_seen - p.first_seen
    let total_session_score : Int := session_score_earned db p session_id
    let db1 := refresh_current_stint db session_id end_time p
    let statePair := upsert_player_stats db1 p total_session_score playtime_seconds end_time
    let db2 := statePair.1
    let stats_id := statePair.2
    let team_scores2 := stintsFor db2 p.id session_id
    team_scores2.foldl
      (fun d ts => upsert_team_stat d session_id end_time stats_id playtime_seconds
        team_scores2.length ts) db2

/-- `player_manager.update_player_playtimes(session_id, end_time)`: fetch the
session's non-bot player records once, then fold each into the cross-session
aggregate tables. -/
def update_player_playtimes (db : DB) (session_id : Nat) (end_time : Int) : DB :=
  if session_id = 0 then db
  else
    let players := db.player_records.filter
      (fun p => p.session_id == session_id && !p.is_bot)
    players.foldl (fun d p => process_player_playtime d session_id end_time p) db

/-! ## `player_manager.update_death_statistics` -/

/-- The join `player_team_changes JOIN player_records ON player_id = id`
restricted to the session's events with the given flag and non-bot players. -/
def session_events (db : DB) (session_id : Nat) (flag : TeamChangeRow → Bool) :
    List (TeamChangeRow × PlayerRecordRow) :=
  (db.player_team_changes.filter
      (fun tc => tc.session_id == session_id && flag tc)).filterMap (fun tc =>
    match db.player_records.find? (fun pr => pr.id == tc.player_id) with
    | some pr => if pr.is_bot then none else some (tc, pr)
    | none => none)

/-- Upsert one death event into `player_death_stats` (addressed by its
UNIQUE `steam_id`): increment the death count and add the wave number
(defaulted to 0). -/
def upsert_death_stat (db : DB) (now : Int) (ev : TeamChangeRow × PlayerRecordRow) : DB :=
  let steam_id := ev.2.steam_id
  let player_name := ev.2.player_name
  let wave_number := ev.1.wave_number.getD 0
  match db.player_death_stats.find? (fun s => s.steam_id == steam_id) with
  | some stats =>
    { db with player_death_stats := db.player_death_stats.map (fun s =>
        if s.steam_id == steam_id then
          { s with
            player_name := player_name,
            total_deaths := stats.total_deaths + 1,
            waves_survived := stats.waves_survived + wave_number,
            last_updated := now }
        else s) }
  | none =>
    { db with player_death_stats := db.player_death_stats ++
        [⟨steam_id, player_name, 1, wave_number, now⟩] }

/-- Upsert one redeem event into `player_redeem_stats` (addressed by its
UNIQUE `steam_id`): increment the redemption count. -/
def upsert_redeem_stat (db : DB) (now : Int) (ev : TeamChangeRow × PlayerRecordRow) : DB :=
  let steam_id := ev.2.steam_id
  let player_name := ev.2.player_name
  match db.player_redeem_stats.find? (fun s => s.steam_id == steam_id) with
  | some stats =>
    { db with player_redeem_stats := db.player_redeem_stats.map (fun s =>
        if s.steam_id == steam_id then
          { s with
            player_name := player_name,
            total_redeems := stats.total_redeems + 1,
            last_updated := now }
        else s) }
  | none =>
    { db with player_redeem_stats := db.player_redeem_stats ++
        [⟨steam_id, player_name, 1, now⟩] }

/-- `player_manager.update_death_statistics(session_id)`: upsert
`player_death_stats` for every death event and `player_redeem_stats` for
every redeem event of the session's non-bot players. -/
def update_death_statistics (db : DB) (session_id : Nat) (now : Int) : DB :=
  if session_id = 0 then db
  else
    let deaths := session_events db session_id (·.is_death)
    let db := deaths.foldl (fun d ev => upsert_death_stat d now ev) db
    let redeems := session_events db session_id (·.is_redeem)
    redeems.foldl (fun d ev => upsert_redeem_stat d now ev) db

/-! ## `session_manager.get_active_session` (the lifecycle engine) -/

/-- The close-and-fold pair run on a session that is being finalised:
`update_player_playtimes` followed by `update_death_statistics`. -/
def fold_session_stats (db : DB) (session_id : Nat) (now : Int) : DB :=
  update_death_statistics (update_player_playtimes db session_id now) session_id now

/-- `INSERT INTO game_sessions ... VALUES (..., 1, team4_count, team3_count)`:
the new active session, seeded from the snapshot.  Note the source stores the
snapshot's team-4 count into `team1_player_count` and the team-3 count into
`team2_player_count`. -/
def insert_new_session (db : DB) (server_id : Nat) (map_name : String) (now : Int)
    (max_players player_count : Nat) (wave_text : Option String)
    (wave_number : Option Nat) (team_data : Option (Nat → Nat)) : DB × Nat :=
  let t1 : Nat := match team_data with | some f => f 4 | none => 0
  let t2 : Nat := match team_data with | some f => f 3 | none => 0
  let row : SessionRow :=
    { id := db.nextSessionId, server_id := server_id, map_name := map_name,
      start_time := now, end_time := none, max_players := max_players,
      peak_player_count := player_count, wave_text := wave_text,
      wave_number := wave_number, is_active := true,
      team1_player_count := t1, team2_player_count := t2, session_result := none }
  ({ db with
      game_sessions := db.game_sessions ++ [row],
      nextSessionId := db.nextSessionId + 1 }, db.nextSessionId)

/-- The `if new_session_needed:` block of `get_active_session`: when a
session id is in hand, close it (without touching `session_result`) and fold
its stats, then insert the replacement session. -/
def new_session_block (db : DB) (session_id : Option Nat) (server_id : Nat)
    (map_name : String) (now : Int) (max_players player_count : Nat)
    (wave_text : Option String) (wave_number : Option Nat)
    (team_data : Option (Nat → Nat)) : DB × Nat :=
  let db : DB :=
    match session_id with
    | some sid => fold_session_stats (close_session_plain db sid now) sid now
    | none => db
  insert_new_session db server_id map_name now max_players player_count
    wave_text wave_number team_data

/-- The `else` (no new session) tail of `get_active_session`: refresh the
stored wave text/number, the peak player count (max of stored peak and the
snapshot's count) and, when team data is present, the two tracked team
occupancy counts. -/
def continue_session_update (db : DB) (s : SessionRow) (wave_text : Option String)
    (wave_number : Option Nat) (player_count : Nat)
    (team_data : Option (Nat → Nat)) : DB × Nat :=
  let peak := max s.peak_player_count player_count
  match team_data with
  | some f =>
    ({ db with game_sessions := db.game_sessions.map (fun r =>
        if r.id == s.id then
          { r with wave_text := wave_text, wave_number := wave_number,
                   peak_player_count := peak,
                   team1_player_count := f 4, team2_player_count := f 3 }
        else r) }, s.id)
  | none =>
    ({ db with game_sessions := db.game_sessions.map (fun r =>
        if r.id == s.id then
          { r with wave_text := wave_text, wave_number := wave_number,
                   peak_player_count := peak }
        else r) }, s.id)

/-- The branch of `get_active_session` taken when the freshest active session
for the server (if any) does not force a map change: re-query the active
session on (server, map) and run the wave-regression / progression / timeout
decision tree. -/
def same_map_branch (db : DB) (server_id : Nat) (map_name : String)
    (current_wave : Option String) (cwn : Option Nat)
    (player_count max_players : Nat) (team_data : Option (Nat → Nat))
    (now : Int) : DB × Nat :=
  match latest_active_session_on_map db server_id map_name with
  | none =>
    new_session_block db none server_id map_name now max_players player_count
      current_wave cwn team_data
  | some s =>
    if s.end_time.isSome then
      -- defensive: the active session already carries an end time
      new_session_block db (some s.id) server_id map_name now max_players
        player_count current_wave cwn team_data
    else
      match cwn, s.wave_number with
      | some cw, some pw =>
        if cw < pw then
          if 0 < same_wave_count db s.id cw ∨ cw = 1 then
            -- round restart
            let res := determine_session_result db s.id (some pw)
            let db1 := close_session_result db s.id now (res ++ " - Round Restarted")
            let db2 := save_wave_end_snapshot db1 s.id (some pw) "Round Restarted" now
            let db3 := fold_session_stats db2 s.id now
            new_session_block db3 (some s.id) server_id map_name now max_players
              player_count current_wave cwn team_data
          else
            -- benign wave reset
            continue_session_update db s current_wave cwn player_count team_data
        else if pw < cw then
          -- wave progression
          let db1 :=
            if 0 < pw then save_wave_end_snapshot db s.id (some pw) "Wave Completed" now
            else db
          continue_session_update db1 s current_wave cwn player_count team_data
        else
          continue_session_update db s current_wave cwn player_count team_data
      | _, _ =>
        -- at least one wave index unknown: inactivity timeout check
        match last_active_status db s.id with
        | some st =>
          if 900 < now - st.timestamp then
            let db1 := close_session_result db s.id now "Loss - Timeout"
            let db2 := save_wave_end_snapshot db1 s.id (some (s.wave_number.getD 0))
              "Timeout" now
            new_session_block db2 (some s.id) server_id map_name now max_players
              player_count current_wave cwn team_data
          else
            continue_session_update db s current_wave cwn player_count team_data
        | none =>
          continue_session_update db s current_wave cwn player_count team_data

/-- `session_manager.get_active_session(server_id, map_name, current_wave,
player_count, max_players, team_data)`: one run of the lifecycle engine for
one server.  Returns the updated database and the session id now current. -/
def get_active_session (db : DB) (server_id : Nat) (map_name : String)
    (current_wave : Option String) (player_count max_players : Nat)
    (team_data : Option (Nat → Nat)) (now : Int) : DB × Nat :=
  let cwn := extract_wave_number current_wave
  match latest_active_session db server_id with
  | some s0 =>
    if s0.map_name ≠ map_name then
      -- map change: close with computed result, snapshot, fold, create new
      let res := determine_session_result db s0.id s0.wave_number
      let db1 := close_session_result db s0.id now (res ++ " - Map Changed")
      let db2 := save_wave_end_snapshot db1 s0.id (some (s0.wave_number.getD 0))
        "Map Changed" now
      let db3 := fold_session_stats db2 s0.id now
      new_session_block db3 none server_id map_name now max_players player_count
        current_wave cwn team_data
    else
      same_map_branch db server_id map_name current_wave cwn player_count
        max_players team_data now
  | none =>
    same_map_branch db server_id map_name current_wave cwn player_count
      max_players team_data now

/-! ## `server_monitor.ServerMonitor` startup recovery -/

/-- `server_monitor.ServerMonitor.cleanup_previous_sessions`.  The source
selects every session still marked active and, for each, reads
`session.get('wave_number')` before doing anything else to that session.
`database.get_db_connection` installs `row_factory = sqlite3.Row`, and
`sqlite3.Row` has no `.get` method, so on a store with at least one active
session the first loop iteration raises `AttributeError` before the first
`UPDATE`; the function's blanket `except Exception` handler rolls the
connection back, logs and returns.  With no active session the loop body
never runs.  Either way no row is written: the store is returned unchanged.
The two match arms mirror the two source paths (empty fetch; abort on the
first fetched row). -/
def cleanup_previous_sessions (db : DB) (_now : Int) : DB :=
  match db.game_sessions.filter (fun r => r.is_active) with
  | [] => db
  | _ :: _ => db

/-- `server_monitor.ServerMonitor.start` up to the point where worker and
polling threads are spawned: the database state the first polling cycle
observes is the state `cleanup_previous_sessions` leaves behind. -/
def monitor_start (db : DB) (now : Int) : DB :=
  cleanup_previous_sessions db now

/-! ## Observables of the aggregate tables -/

/-- Cumulative score of a player identity in `player_stats` (0 when absent). -/
def totalScoreOf (db : DB) (steam : String) : Int :=
  match statsBySteam db steam with
  | some s => s.total_score
  | none => 0

/-- Cumulative playtime of a player identity in `player_stats` (0 when absent). -/
def totalPlaytimeOf (db : DB) (steam : String) : Int :=
  match statsBySteam db steam with
  | some s => s.total_playtime_seconds
  | none => 0

/-- Session count of a player identity in `player_stats` (0 when absent). -/
def sessionCountOf (db : DB) (steam : String) : Nat :=
  match statsBySteam db steam with
  | some s => s.session_count
  | none => 0

/-! ## Concrete databases used to instantiate the theorems -/

/-- An active session of server 1 on map "Farm" at wave 3 with one survivor. -/
def sessA : SessionRow :=
  { id := 1, server_id := 1, map_name := "Farm", start_time := 0, end_time := none,
    max_players := 10, peak_player_count := 2, wave_text := some "Wave 3",
    wave_number := some 3, is_active := true, team1_player_count := 1,
    team2_player_count := 0, session_result := none }

/-- A non-bot player with no team and score 10, seen from t=0 to t=60. -/
def prA : PlayerRecordRow :=
  { id := 1, session_id := 1, steam_id := "s1", player_name := "alice",
    team_id := none, current_score := 10, initial_score := 0, highest_score := 10,
    first_seen := 0, last_seen := 60, is_bot := false }

/-- One active session, one player, nothing else. -/
def dbA : DB :=
  ⟨[sessA], [], [prA], [], [], [], [], [], [], [], [], [], 2, 1, 1⟩

/-- `dbA` with the session's wave fields unknown and one status record with
players at t=0 (for the timeout path). -/
def dbT : DB :=
  ⟨[{ sessA with wave_number := none, wave_text := none }],
   [⟨1, 0, 2, none⟩], [prA], [], [], [], [], [], [], [], [], [], 2, 1, 1⟩

/-- A player with two stints, 10→40 on team 4 and 40→55 on team 3
(the spec's worked example). -/
def prC : PlayerRecordRow :=
  { id := 1, session_id := 1, steam_id := "s7", player_name := "carol",
    team_id := none, current_score := 55, initial_score := 10, highest_score := 55,
    first_seen := 0, last_seen := 60, is_bot := false }

/-- Database for the stint-sum example: stints (10,40) and (40,55). -/
def dbC : DB :=
  ⟨[{ sessA with is_active := false, end_time := some 60 }], [], [prC],
   [⟨1, 1, 4, 10, 40, 0, 30⟩, ⟨1, 1, 3, 40, 55, 30, 60⟩],
   [], [], [], [], [], [], [], [], 2, 1, 1⟩

/-- A player whose `last_seen` precedes `first_seen`. -/
def prN : PlayerRecordRow :=
  { id := 1, session_id := 1, steam_id := "p9", player_name := "nick",
    team_id := none, current_score := 0, initial_score := 0, highest_score := 0,
    first_seen := 10, last_seen := 5, is_bot := false }

/-- Database exercising the negative-playtime case. -/
def dbN : DB :=
  ⟨[sessA], [], [prN], [], [], [], [], [], [], [], [], [], 2, 1, 1⟩

/-! ## Generic list infrastructure -/

theorem foldl_pres {α β γ : Type} (g : β → γ) (f : β → α → β)
    (h : ∀ b a, g (f b a) = g b) :
    ∀ (l : List α) (b : β), g (l.foldl f b) = g b := by
  intro l
  induction l with
  | nil => intro b; rfl
  | cons a t ih => intro b; rw [List.foldl_cons, ih, h]

theorem foldl_pres_prop {α β : Type} (P : β → Prop) (f : β → α → β)
    (h : ∀ b a, P b → P (f b a)) :
    ∀ (l : List α) (b : β), P b → P (l.foldl f b) := by
  intro l
  induction l with
  | nil => intro b hb; exact hb
  | cons a t ih => intro b hb; exact ih (f b a) (h b a hb)

theorem length_filter_map_le {α : Type} (l : List α) (p : α → Bool) (f : α → α)
    (h : ∀ a, p (f a) = true → p a = true) :
    ((l.map f).filter p).length ≤ (l.filter p).length := by
  induction l with
  | nil => simp
  | cons a t ih =>
    rw [List.map_cons, List.filter_cons, List.filter_cons]
    cases hfa : p (f a) with
    | true =>
      rw [h a hfa]
      simpa using ih
    | false =>
      cases hpa : p a with
      | true => simp only [if_pos rfl]; simpa using Nat.le_succ_of_le ih
      | false => simpa using ih

theorem filter_map_eq_self {α : Type} (l : List α) (p : α → Bool) (f : α → α)
    (hinv : ∀ a, p (f a) = p a) (hfix : ∀ a, p a = true → f a = a) :
    (l.map f).filter p = l.filter p := by
  induction l with
  | nil => rfl
  | cons a t ih =>
    rw [List.map_cons, List.filter_cons, List.filter_cons, hinv a]
    cases hpa : p a with
    | true => rw [if_pos rfl, if_pos rfl, hfix a hpa, ih]
    | false => simpa using ih

theorem eq_singleton_of_mem_length_le_one {α : Type} {l : List α} {a : α}
    (ha : a ∈ l) (h : l.length ≤ 1) : l = [a] := by
  match l with
  | [] => cases ha
  | [x] => rw [List.mem_singleton] at ha; rw [ha]
  | x :: y :: t => simp at h

theorem maxBy_aux_mem {α : Type} (key : α → Int) :
    ∀ (l : List α) (acc : Option α) (b : α),
      l.foldl (fun acc r =>
        match acc with
        | none => some r
        | some c => if key c < key r then some r else some c) acc = some b →
      b ∈ l ∨ acc = some b := by
  intro l
  induction l with
  | nil => intro acc b h; exact Or.inr h
  | cons a t ih =>
    intro acc b h
    rw [List.foldl_cons] at h
    rcases ih _ b h with hb | hb
    · exact Or.inl (List.mem_cons_of_mem a hb)
    · match acc with
      | none =>
        simp only [] at hb
        exact Or.inl (by rw [← Option.some.injEq] at hb; simp_all)
      | some c =>
        simp only [] at hb
        split at hb
        · rename_i hlt
          cases hb
          exact Or.inl (List.mem_cons_self _ _)
        · exact Or.inr hb

theorem maxBy_mem {α : Type} (key : α → Int) (l : List α) (b : α)
    (h : maxBy key l = some b) : b ∈ l := by
  rcases maxBy_aux_mem key l none b h with hb | hb
  · exact hb
  · cases hb

theorem maxBy_aux_ne_none {α : Type} (key : α → Int) :
    ∀ (l : List α) (c : α),
      l.foldl (fun acc r =>
        match acc with
        | none => some r
        | some c => if key c < key r then some r else some c) (some c) ≠ none := by
  intro l
  induction l with
  | nil => intro c h; cases h
  | cons a t ih =>
    intro c
    rw [List.foldl_cons]
    simp only []
    split
    · exact ih a
    · exact ih c

theorem maxBy_eq_none {α : Type} (key : α → Int) (l : List α)
    (h : maxBy key l = none) : l = [] := by
  match l with
  | [] => rfl
  | a :: t =>
    unfold maxBy at h
    rw [List.foldl_cons] at h
    exact absurd h (maxBy_aux_ne_none key t a)

/-! ## Which tables each operation writes -/

theorem close_result_gs (db : DB) (sid : Nat) (now : Int) (res : String) :
    (close_session_result db sid now res).game_sessions =
      db.game_sessions.map (fun r =>
        if r.id == sid then
          { r with is_active := false, end_time := some now, session_result := some res }
        else r) := rfl

theorem close_plain_gs (db : DB) (sid : Nat) (now : Int) :
    (close_session_plain db sid now).game_sessions =
      db.game_sessions.map (fun r =>
        if r.id == sid then { r with is_active := false, end_time := some now } else r) := rfl

theorem snapshot_gs (db : DB) (sid : Nat) (wn : Option Nat) (r : String) (t : Int) :
    (save_wave_end_snapshot db sid wn r t).game_sessions = db.game_sessions := by
  unfold save_wave_end_snapshot
  dsimp only
  repeat' split
  all_goals rfl

theorem snapshot_pr (db : DB) (sid : Nat) (wn : Option Nat) (r : String) (t : Int) :
    (save_wave_end_snapshot db sid wn r t).player_records = db.player_records := by
  unfold save_wave_end_snapshot
  dsimp only
  repeat' split
  all_goals rfl

theorem snapshot_pts (db : DB) (sid : Nat) (wn : Option Nat) (r : String) (t : Int) :
    (save_wave_end_snapshot db sid wn r t).player_team_scores = db.player_team_scores := by
  unfold save_wave_end_snapshot
  dsimp only
  repeat' split
  all_goals rfl

theorem snapshot_stats (db : DB) (sid : Nat) (wn : Option Nat) (r : String) (t : Int) :
    (save_wave_end_snapshot db sid wn r t).player_stats = db.player_stats := by
  unfold save_wave_end_snapshot
  dsimp only
  repeat' split
  all_goals rfl

theorem snapshot_tc (db : DB) (sid : Nat) (wn : Option Nat) (r : String) (t : Int) :
    (save_wave_end_snapshot db sid wn r t).player_team_changes = db.player_team_changes := by
  unfold save_wave_end_snapshot
  dsimp only
  repeat' split
  all_goals rfl

theorem snapshot_nsid (db : DB) (sid : Nat) (wn : Option Nat) (r : String) (t : Int) :
    (save_wave_end_snapshot db sid wn r t).nextSessionId = db.nextSessionId := by
  unfold save_wave_end_snapshot
  dsimp only
  repeat' split
  all_goals rfl

theorem snapshot_wer_mono (db : DB) (sid : Nat) (wn : Option Nat) (r : String) (t : Int)
    (w : WaveEndRow) (hw : w ∈ db.wave_end_records) :
    w ∈ (save_wave_end_snapshot db sid wn r t).wave_end_records := by
  unfold save_wave_end_snapshot
  dsimp only
  repeat' split
  all_goals first | exact hw | exact List.mem_append_left _ hw

theorem refresh_gs (db : DB) (sid : Nat) (t : Int) (p : PlayerRecordRow) :
    (refresh_current_stint db sid t p).game_sessions = db.game_sessions := by
  unfold refresh_current_stint
  split
  · rfl
  · split <;> rfl

theorem refresh_stats (db : DB) (sid : Nat) (t : Int) (p : PlayerRecordRow) :
    (refresh_current_stint db sid t p).player_stats = db.player_stats := by
  unfold refresh_current_stint
  split
  · rfl
  · split <;> rfl

theorem refresh_pr (db : DB) (sid : Nat) (t : Int) (p : PlayerRecordRow) :
    (refresh_current_stint db sid t p).player_records = db.player_records := by
  unfold refresh_current_stint
  split
  · rfl
  · split <;> rfl

theorem refresh_wer (db : DB) (sid : Nat) (t : Int) (p : PlayerRecordRow) :
    (refresh_current_stint db sid t p).wave_end_records = db.wave_end_records := by
  unfold refresh_current_stint
  split
  · rfl
  · split <;> rfl

theorem refresh_nsid (db : DB) (sid : Nat) (t : Int) (p : PlayerRecordRow) :
    (refresh_current_stint db sid t p).nextSessionId = db.nextSessionId := by
  unfold refresh_current_stint
  split
  · rfl
  · split <;> rfl

theorem upsert_ps_gs (db : DB) (p : PlayerRecordRow) (a b t : Int) :
    (upsert_player_stats db p a b t).1.game_sessions = db.game_sessions := by
  unfold upsert_player_stats
  split <;> rfl

theorem upsert_ps_pr (db : DB) (p : PlayerRecordRow) (a b t : Int) :
    (upsert_player_stats db p a b t).1.player_records = db.player_records := by
  unfold upsert_player_stats
  split <;> rfl

theorem upsert_ps_pts (db : DB) (p : PlayerRecordRow) (a b t : Int) :
    (upsert_player_stats db p a b t).1.player_team_scores = db.player_team_scores := by
  unfold upsert_player_stats
  split <;> rfl

theorem upsert_ps_wer (db : DB) (p : PlayerRecordRow) (a b t : Int) :
    (upsert_player_stats db p a b t).1.wave_end_records = db.wave_end_records := by
  unfold upsert_player_stats
  split <;> rfl

theorem upsert_ps_nsid (db : DB) (p : PlayerRecordRow) (a b t : Int) :
    (upsert_player_stats db p a b t).1.nextSessionId = db.nextSessionId := by
  unfold upsert_player_stats
  split <;> rfl

theorem upsert_ts_gs (db : DB) (sid : Nat) (t : Int) (stid : Nat) (pt : Int) (n : Nat)
    (ts : StintRow) :
    (upsert_team_stat db sid t stid pt n ts).game_sessions = db.game_sessions := by
  unfold upsert_team_stat
  dsimp only
  repeat' split
  all_goals rfl

theorem upsert_ts_stats (db : DB) (sid : Nat) (t : Int) (stid : Nat) (pt : Int) (n : Nat)
    (ts : StintRow) :
    (upsert_team_stat db sid t stid pt n ts).player_stats = db.player_stats := by
  unfold upsert_team_stat
  dsimp only
  repeat' split
  all_goals rfl

theorem upsert_ts_pr (db : DB) (sid : Nat) (t : Int) (stid : Nat) (pt : Int) (n : Nat)
    (ts : StintRow) :
    (upsert_team_stat db sid t stid pt n ts).player_records = db.player_records := by
  unfold upsert_team_stat
  dsimp only
  repeat' split
  all_goals rfl

theorem upsert_ts_pts (db : DB) (sid : Nat) (t : Int) (stid : Nat) (pt : Int) (n : Nat)
    (ts : StintRow) :
    (upsert_team_stat db sid t stid pt n ts).player_team_scores = db.player_team_scores := by
  unfold upsert_team_stat
  dsimp only
  repeat' split
  all_goals rfl

theorem upsert_ts_wer (db : DB) (sid : Nat) (t : Int) (stid : Nat) (pt : Int) (n : Nat)
    (ts : StintRow) :
    (upsert_team_stat db sid t stid pt n ts).wave_end_records = db.wave_end_records := by
  unfold upsert_team_stat
  dsimp only
  repeat' split
  all_goals rfl

theorem upsert_ts_nsid (db : DB) (sid : Nat) (t : Int) (stid : Nat) (pt : Int) (n : Nat)
    (ts : StintRow) :
    (upsert_team_stat db sid t stid pt n ts).nextSessionId = db.nextSessionId := by
  unfold upsert_team_stat
  dsimp only
  repeat' split
  all_goals rfl

theorem upsert_death_gs (db : DB) (t : Int) (ev : TeamChangeRow × PlayerRecordRow) :
    (upsert_death_stat db t ev).game_sessions = db.game_sessions := by
  unfold upsert_death_stat
  dsimp only
  repeat' split
  all_goals rfl

theorem upsert_death_stats (db : DB) (t : Int) (ev : TeamChangeRow × PlayerRecordRow) :
    (upsert_death_stat db t ev).player_stats = db.player_stats := by
  unfold upsert_death_stat
  dsimp only
  repeat' split
  all_goals rfl

theorem upsert_death_pr (db : DB) (t : Int) (ev : TeamChangeRow × PlayerRecordRow) :
    (upsert_death_stat db t ev).player_records = db.player_records := by
  unfold upsert_death_stat
  dsimp only
  repeat' split
  all_goals rfl

theorem upsert_death_pts (db : DB) (t : Int) (ev : TeamChangeRow × PlayerRecordRow) :
    (upsert_death_stat db t ev).player_team_scores = db.player_team_scores := by
  unfold upsert_death_stat
  dsimp only
  repeat' split
  all_goals rfl

theorem upsert_death_wer (db : DB) (t : Int) (ev : TeamChangeRow × PlayerRecordRow) :
    (upsert_death_stat db t ev).wave_end_records = db.wave_end_records := by
  unfold upsert_death_stat
  dsimp only
  repeat' split
  all_goals rfl

theorem upsert_death_nsid (db : DB) (t : Int) (ev : TeamChangeRow × PlayerRecordRow) :
    (upsert_death_stat db t ev).nextSessionId = db.nextSessionId := by
  unfold upsert_death_stat
  dsimp only
  repeat' split
  all_goals rfl

theorem upsert_redeem_gs (db : DB) (t : Int) (ev : TeamChangeRow × PlayerRecordRow) :
    (upsert_redeem_stat db t ev).game_sessions = db.game_sessions := by
  unfold upsert_redeem_stat
  dsimp only
  repeat' split
  all_goals rfl

theorem upsert_redeem_stats (db : DB) (t : Int) (ev : TeamChangeRow × PlayerRecordRow) :
    (upsert_redeem_stat db t ev).player_stats = db.player_stats := by
  unfold upsert_redeem_stat
  dsimp only
  repeat' split
  all_goals rfl

theorem upsert_redeem_pr (db : DB) (t : Int) (ev : TeamChangeRow × PlayerRecordRow) :
    (upsert_redeem_stat db t ev).player_records = db.player_records := by
  unfold upsert_redeem_stat
  dsimp only
  repeat' split
  all_goals rfl

theorem upsert_redeem_pts (db : DB) (t : Int) (ev : TeamChangeRow × PlayerRecordRow) :
    (upsert_redeem_stat db t ev).player_team_scores = db.player_team_scores := by
  unfold upsert_redeem_stat
  dsimp only
  repeat' split
  all_goals rfl

theorem upsert_redeem_wer (db : DB) (t : Int) (ev : TeamChangeRow × PlayerRecordRow) :
    (upsert_redeem_stat db t ev).wave_end_records = db.wave_end_records := by
  unfold upsert_redeem_stat
  dsimp only
  repeat' split
  all_goals rfl

theorem upsert_redeem_nsid (db : DB) (t : Int) (ev : TeamChangeRow × PlayerRecordRow) :
    (upsert_redeem_stat db t ev).nextSessionId = db.nextSessionId := by
  unfold upsert_redeem_stat
  dsimp only
  repeat' split
  all_goals rfl

theorem process_gs (db : DB) (sid : Nat) (t : Int) (p : PlayerRecordRow) :
    (process_player_playtime db sid t p).game_sessions = db.game_sessions := by
  have h1 : ∀ (l : List StintRow) (d : DB) (stid : Nat) (pt : Int) (n : Nat),
      (l.foldl (fun d ts => upsert_team_stat d sid t stid pt n ts) d).game_sessions
        = d.game_sessions :=
    fun l d stid pt n => foldl_pres DB.game_sessions _ (fun b a => upsert_ts_gs b sid t stid pt n a) l d
  unfold process_player_playtime
  split
  · rfl
  · dsimp only
    rw [h1, upsert_ps_gs, refresh_gs]

theorem process_pr (db : DB) (sid : Nat) (t : Int) (p : PlayerRecordRow) :
    (process_player_playtime db sid t p).player_records = db.player_records := by
  have h1 : ∀ (l : List StintRow) (d : DB) (stid : Nat) (pt : Int) (n : Nat),
      (l.foldl (fun d ts => upsert_team_stat d sid t stid pt n ts) d).player_records
        = d.player_records :=
    fun l d stid pt n => foldl_pres DB.player_records _ (fun b a => upsert_ts_pr b sid t stid pt n a) l d
  unfold process_player_playtime
  split
  · rfl
  · dsimp only
    rw [h1, upsert_ps_pr, refresh_pr]

theorem process_wer (db : DB) (sid : Nat) (t : Int) (p : PlayerRecordRow) :
    (process_player_playtime db sid t p).wave_end_records = db.wave_end_records := by
  have h1 : ∀ (l : List StintRow) (d : DB) (stid : Nat) (pt : Int) (n : Nat),
      (l.foldl (fun d ts => upsert_team_stat d sid t stid pt n ts) d).wave_end_records
        = d.wave_end_records :=
    fun l d stid pt n => foldl_pres DB.wave_end_records _ (fun b a => upsert_ts_wer b sid t stid pt n a) l d
  unfold process_player_playtime
  split
  · rfl
  · dsimp only
    rw [h1, upsert_ps_wer, refresh_wer]

theorem process_nsid (db : DB) (sid : Nat) (t : Int) (p : PlayerRecordRow) :
    (process_player_playtime db sid t p).nextSessionId = db.nextSessionId := by
  have h1 : ∀ (l : List StintRow) (d : DB) (stid : Nat) (pt : Int) (n : Nat),
      (l.foldl (fun d ts => upsert_team_stat d sid t stid pt n ts) d).nextSessionId
        = d.nextSessionId :=
    fun l d stid pt n => foldl_pres DB.nextSessionId _ (fun b a => upsert_ts_nsid b sid t stid pt n a) l d
  unfold process_player_playtime
  split
  · rfl
  · dsimp only
    rw [h1, upsert_ps_nsid, refresh_nsid]

theorem playtimes_gs (db : DB) (sid : Nat) (t : Int) :
    (update_player_playtimes db sid t).game_sessions = db.game_sessions := by
  unfold update_player_playtimes
  split
  · rfl
  · exact foldl_pres DB.game_sessions _ (fun b a => process_gs b sid t a) _ db

theorem playtimes_pr (db : DB) (sid : Nat) (t : Int) :
    (update_player_playtimes db sid t).player_records = db.player_records := by
  unfold update_player_playtimes
  split
  · rfl
  · exact foldl_pres DB.player_records _ (fun b a => process_pr b sid t a) _ db

theorem playtimes_wer (db : DB) (sid : Nat) (t : Int) :
    (update_player_playtimes db sid t).wave_end_records = db.wave_end_records := by
  unfold update_player_playtimes
  split
  · rfl
  · exact foldl_pres DB.wave_end_records _ (fun b a => process_wer b sid t a) _ db

theorem playtimes_nsid (db : DB) (sid : Nat) (t : Int) :
    (update_player_playtimes db sid t).nextSessionId = db.nextSessionId := by
  unfold update_player_playtimes
  split
  · rfl
  · exact foldl_pres DB.nextSessionId _ (fun b a => process_nsid b sid t a) _ db

theorem deaths_gs (db : DB) (sid : Nat) (t : Int) :
    (update_death_statistics db sid t).game_sessions = db.game_sessions := by
  unfold update_death_statistics
  split
  · rfl
  · dsimp only
    rw [foldl_pres DB.game_sessions _ (fun b a => upsert_redeem_gs b t a),
        foldl_pres DB.game_sessions _ (fun b a => upsert_death_gs b t a)]

theorem deaths_pr (db : DB) (sid : Nat) (t : Int) :
    (update_death_statistics db sid t).player_records = db.player_records := by
  unfold update_death_statistics
  split
  · rfl
  · dsimp only
    rw [foldl_pres DB.player_records _ (fun b a => upsert_redeem_pr b t a),
        foldl_pres DB.player_records _ (fun b a => upsert_death_pr b t a)]

theorem deaths_stats (db : DB) (sid : Nat) (t : Int) :
    (update_death_statistics db sid t).player_stats = db.player_stats := by
  unfold update_death_statistics
  split
  · rfl
  · dsimp only
    rw [foldl_pres DB.player_stats _ (fun b a => upsert_redeem_stats b t a),
        foldl_pres DB.player_stats _ (fun b a => upsert_death_stats b t a)]

theorem deaths_pts (db : DB) (sid : Nat) (t : Int) :
    (update_death_statistics db sid t).player_team_scores = db.player_team_scores := by
  unfold update_death_statistics
  split
  · rfl
  · dsimp only
    rw [foldl_pres DB.player_team_scores _ (fun b a => upsert_redeem_pts b t a),
        foldl_pres DB.player_team_scores _ (fun b a => upsert_death_pts b t a)]

theorem deaths_wer (db : DB) (sid : Nat) (t : Int) :
    (update_death_statistics db sid t).wave_end_records = db.wave_end_records := by
  unfold update_death_statistics
  split
  · rfl
  · dsimp only
    rw [foldl_pres DB.wave_end_records _ (fun b a => upsert_redeem_wer b t a),
        foldl_pres DB.wave_end_records _ (fun b a => upsert_death_wer b t a)]

theorem deaths_nsid (db : DB) (sid : Nat) (t : Int) :
    (update_death_statistics db sid t).nextSessionId = db.nextSessionId := by
  unfold update_death_statistics
  split
  · rfl
  · dsimp only
    rw [foldl_pres DB.nextSessionId _ (fun b a => upsert_redeem_nsid b t a),
        foldl_pres DB.nextSessionId _ (fun b a => upsert_death_nsid b t a)]

theorem fold_gs (db : DB) (sid : Nat) (t : Int) :
    (fold_session_stats db sid t).game_sessions = db.game_sessions := by
  unfold fold_session_stats
  rw [deaths_gs, playtimes_gs]

theorem fold_pr (db : DB) (sid : Nat) (t : Int) :
    (fold_session_stats db sid t).player_records = db.player_records := by
  unfold fold_session_stats
  rw [deaths_pr, playtimes_pr]

theorem fold_wer (db : DB) (sid : Nat) (t : Int) :
    (fold_session_stats db sid t).wave_end_records = db.wave_end_records := by
  unfold fold_session_stats
  rw [deaths_wer, playtimes_wer]

theorem fold_nsid (db : DB) (sid : Nat) (t : Int) :
    (fold_session_stats db sid t).nextSessionId = db.nextSessionId := by
  unfold fold_session_stats
  rw [deaths_nsid, playtimes_nsid]

theorem continue_gs (db : DB) (s : SessionRow) (wt : Option String) (wn : Option Nat)
    (pc : Nat) (td : Option (Nat → Nat)) :
    ∃ f : SessionRow → SessionRow,
      (∀ r, (f r).is_active = r.is_active ∧ (f r).server_id = r.server_id) ∧
      (continue_session_update db s wt wn pc td).1.game_sessions
        = db.game_sessions.map f := by
  unfold continue_session_update
  cases td with
  | none => exact ⟨_, fun r => by split <;> exact ⟨rfl, rfl⟩, rfl⟩
  | some f => exact ⟨_, fun r => by split <;> exact ⟨rfl, rfl⟩, rfl⟩

theorem continue_wer (db : DB) (s : SessionRow) (wt : Option String) (wn : Option Nat)
    (pc : Nat) (td : Option (Nat → Nat)) :
    (continue_session_update db s wt wn pc td).1.wave_end_records = db.wave_end_records := by
  unfold continue_session_update
  cases td <;> rfl

theorem continue_snd (db : DB) (s : SessionRow) (wt : Option String) (wn : Option Nat)
    (pc : Nat) (td : Option (Nat → Nat)) :
    (continue_session_update db s wt wn pc td).2 = s.id := by
  unfold continue_session_update
  cases td <;> rfl

/-! ## The at-most-one-active-session-per-server invariant -/

/-- The rows counted by the invariant: sessions of `srv` with `active = 1`. -/
def activeRowsFor (db : DB) (srv : Nat) : List SessionRow :=
  db.game_sessions.filter (fun r => r.server_id == srv && r.is_active)

/-- The spec's invariant: at most one `game_sessions` row per server has
`active = true`. -/
def AtMostOneActive (db : DB) : Prop :=
  ∀ srv, (activeRowsFor db srv).length ≤ 1

theorem active_filter_imp {srv : Nat} (f : SessionRow → SessionRow)
    (hsv : ∀ r, (f r).server_id = r.server_id)
    (hact : ∀ r, (f r).is_active = true → r.is_active = true) :
    ∀ a : SessionRow, ((f a).server_id == srv && (f a).is_active) = true →
      (a.server_id == srv && a.is_active) = true := by
  intro a h
  rw [Bool.and_eq_true] at h ⊢
  rw [beq_iff_eq] at h ⊢
  exact ⟨by rw [← hsv a]; exact h.1, hact a h.2⟩

theorem active_map_le (l : List SessionRow) (srv : Nat) (f : SessionRow → SessionRow)
    (hsv : ∀ r, (f r).server_id = r.server_id)
    (hact : ∀ r, (f r).is_active = true → r.is_active = true) :
    ((l.map f).filter (fun r => r.server_id == srv && r.is_active)).length ≤
      (l.filter (fun r => r.server_id == srv && r.is_active)).length :=
  length_filter_map_le l _ f (active_filter_imp f hsv hact)

/-- The map done by `close_session_result` on a session row. -/
def closeResultFn (sid : Nat) (now : Int) (res : String) (r : SessionRow) : SessionRow :=
  if r.id == sid then
    { r with is_active := false, end_time := some now, session_result := some res }
  else r

/-- The map done by the generic close in the new-session block. -/
def closePlainFn (sid : Nat) (now : Int) (r : SessionRow) : SessionRow :=
  if r.id == sid then { r with is_active := false, end_time := some now } else r

theorem close_result_gs' (db : DB) (sid : Nat) (now : Int) (res : String) :
    (close_session_result db sid now res).game_sessions
      = db.game_sessions.map (closeResultFn sid now res) := rfl

theorem close_plain_gs' (db : DB) (sid : Nat) (now : Int) :
    (close_session_plain db sid now).game_sessions
      = db.game_sessions.map (closePlainFn sid now) := rfl

theorem closeResultFn_sv (sid : Nat) (now : Int) (res : String) (r : SessionRow) :
    (closeResultFn sid now res r).server_id = r.server_id := by
  unfold closeResultFn
  split <;> rfl

theorem closeResultFn_id (sid : Nat) (now : Int) (res : String) (r : SessionRow) :
    (closeResultFn sid now res r).id = r.id := by
  unfold closeResultFn
  split <;> rfl

theorem closeResultFn_act (sid : Nat) (now : Int) (res : String) (r : SessionRow)
    (h : (closeResultFn sid now res r).is_active = true) :
    r.is_active = true ∧ closeResultFn sid now res r = r ∧ r.id ≠ sid := by
  unfold closeResultFn at h ⊢
  by_cases hid : (r.id == sid) = true
  · rw [if_pos hid] at h
    cases h
  · rw [if_neg hid] at h
    rw [if_neg hid]
    exact ⟨h, rfl, by simpa using hid⟩

theorem closePlainFn_sv (sid : Nat) (now : Int) (r : SessionRow) :
    (closePlainFn sid now r).server_id = r.server_id := by
  unfold closePlainFn
  split <;> rfl

theorem closePlainFn_act (sid : Nat) (now : Int) (r : SessionRow)
    (h : (closePlainFn sid now r).is_active = true) :
    r.is_active = true ∧ closePlainFn sid now r = r ∧ r.id ≠ sid := by
  unfold closePlainFn at h ⊢
  by_cases hid : (r.id == sid) = true
  · rw [if_pos hid] at h
    cases h
  · rw [if_neg hid] at h
    rw [if_neg hid]
    exact ⟨h, rfl, by simpa using hid⟩

/-- All rows of `l` that are active for server `srv` carry session id `sid`. -/
def OnlyActive (l : List SessionRow) (srv sid : Nat) : Prop :=
  ∀ r ∈ l, r.server_id = srv → r.is_active = true → r.id = sid

theorem onlyActive_of_le_one {l : List SessionRow} {srv : Nat} {s : SessionRow}
    (hlen : (l.filter (fun r => r.server_id == srv && r.is_active)).length ≤ 1)
    (hs : s ∈ l) (hsv : s.server_id = srv) (hact : s.is_active = true) :
    OnlyActive l srv s.id := by
  intro r hr h1 h2
  have hsP : s ∈ l.filter (fun r => r.server_id == srv && r.is_active) := by
    rw [List.mem_filter]
    exact ⟨hs, by simp [hsv, hact]⟩
  have hfil := eq_singleton_of_mem_length_le_one hsP hlen
  have hrP : r ∈ l.filter (fun r => r.server_id == srv && r.is_active) := by
    rw [List.mem_filter]
    exact ⟨hr, by simp [h1, h2]⟩
  rw [hfil, List.mem_singleton] at hrP
  rw [hrP]

theorem onlyActive_map {l : List SessionRow} {srv sid : Nat}
    (f : SessionRow → SessionRow)
    (hact : ∀ r, (f r).is_active = true → f r = r)
    (h : OnlyActive l srv sid) : OnlyActive (l.map f) srv sid := by
  intro r' hr' h1 h2
  rcases List.mem_map.mp hr' with ⟨r, hr, hfr⟩
  have hfix := hact r (by rw [hfr]; exact h2)
  rw [← hfr, hfix] at h1 h2 ⊢
  exact h r hr h1 h2

/-- Closing session `sid` leaves no active row for `srv` when every active
row for `srv` had id `sid`. -/
theorem filter_close_nil {l : List SessionRow} {srv sid : Nat}
    (f : SessionRow → SessionRow)
    (hsv : ∀ r, (f r).server_id = r.server_id)
    (hact : ∀ r, (f r).is_active = true → r.is_active = true ∧ f r = r ∧ r.id ≠ sid)
    (h : OnlyActive l srv sid) :
    (l.map f).filter (fun r => r.server_id == srv && r.is_active) = [] := by
  rw [List.filter_eq_nil_iff]
  intro a ha
  rcases List.mem_map.mp ha with ⟨r, hr, hfr⟩
  intro hP
  rw [Bool.and_eq_true, beq_iff_eq] at hP
  rcases hact r (by rw [hfr]; exact hP.2) with ⟨hra, hfix, hne⟩
  apply hne
  apply h r hr _ hra
  rw [← hsv r, hfr]
  exact hP.1

theorem active_insert (db : DB) (server_id : Nat) (map_name : String) (now : Int)
    (mp pc : Nat) (wt : Option String) (wn : Option Nat) (td : Option (Nat → Nat))
    (srv : Nat) :
    (activeRowsFor (insert_new_session db server_id map_name now mp pc wt wn td).1 srv).length
      = (activeRowsFor db srv).length + (if server_id == srv then 1 else 0) := by
  unfold insert_new_session activeRowsFor
  dsimp only
  rw [List.filter_append, List.length_append]
  congr 1
  simp only [List.filter_cons, List.filter_nil]
  split
  · rename_i h
    rw [Bool.and_eq_true] at h
    simp [h.1]
  · rename_i h
    rw [Bool.and_true] at h
    simp only [h]
    rfl

theorem activeRowsFor_congr {db' db : DB} (h : db'.game_sessions = db.game_sessions)
    (srv : Nat) : activeRowsFor db' srv = activeRowsFor db srv := by
  unfold activeRowsFor
  rw [h]

theorem nsb_none_count (db : DB) (server_id : Nat) (map_name : String) (now : Int)
    (mp pc : Nat) (wt : Option String) (wn : Option Nat) (td : Option (Nat → Nat))
    (srv : Nat) :
    (activeRowsFor (new_session_block db none server_id map_name now mp pc wt wn td).1 srv).length
      = (activeRowsFor db srv).length + (if server_id == srv then 1 else 0) := by
  unfold new_session_block
  exact active_insert db server_id map_name now mp pc wt wn td srv

theorem nsb_some_gs (db : DB) (sid : Nat) (server_id : Nat) (map_name : String)
    (now : Int) (mp pc : Nat) (wt : Option String) (wn : Option Nat)
    (td : Option (Nat → Nat)) :
    (new_session_block db (some sid) server_id map_name now mp pc wt wn td).1.game_sessions
      = (db.game_sessions.map (closePlainFn sid now))
          ++ [{ id := db.nextSessionId, server_id := server_id, map_name := map_name,
                start_time := now, end_time := none, max_players := mp,
                peak_player_count := pc, wave_text := wt, wave_number := wn,
                is_active := true,
                team1_player_count := match td with | some f => f 4 | none => 0,
                team2_player_count := match td with | some f => f 3 | none => 0,
                session_result := none }] := by
  unfold new_session_block insert_new_session
  dsimp only
  rw [fold_gs, close_plain_gs', fold_nsid]
  rfl

theorem filter_one_row_le (row : SessionRow) (srv : Nat) :
    (List.filter (fun r => r.server_id == srv && r.is_active) [row]).length
      ≤ (if row.server_id == srv then 1 else 0) := by
  simp only [List.filter_cons, List.filter_nil]
  split
  · rename_i h
    rw [Bool.and_eq_true] at h
    simp [h.1]
  · split <;> simp

theorem nsb_some_count_le (db : DB) (sid : Nat) (server_id : Nat) (map_name : String)
    (now : Int) (mp pc : Nat) (wt : Option String) (wn : Option Nat)
    (td : Option (Nat → Nat)) (srv : Nat) :
    (activeRowsFor (new_session_block db (some sid) server_id map_name now mp pc wt wn td).1 srv).length
      ≤ (activeRowsFor db srv).length + (if server_id == srv then 1 else 0) := by
  unfold activeRowsFor
  rw [nsb_some_gs]
  rw [List.filter_append, List.length_append]
  have h1 := active_map_le db.game_sessions srv (closePlainFn sid now)
    (fun r => closePlainFn_sv sid now r)
    (fun r h => (closePlainFn_act sid now r h).1)
  exact Nat.add_le_add h1 (filter_one_row_le _ srv)

theorem nsb_some_count_one (db : DB) (sid : Nat) (server_id : Nat) (map_name : String)
    (now : Int) (mp pc : Nat) (wt : Option String) (wn : Option Nat)
    (td : Option (Nat → Nat)) (srv : Nat)
    (honly : OnlyActive db.game_sessions srv sid) :
    (activeRowsFor (new_session_block db (some sid) server_id map_name now mp pc wt wn td).1 srv).length ≤ 1 := by
  unfold activeRowsFor
  rw [nsb_some_gs]
  rw [List.filter_append, List.length_append]
  rw [filter_close_nil (closePlainFn sid now)
    (fun r => closePlainFn_sv sid now r)
    (fun r h => closePlainFn_act sid now r h) honly]
  simp only [List.length_nil, Nat.zero_add]
  refine le_trans (filter_one_row_le _ srv) ?_
  split <;> simp

theorem nsb_amoa (dbX db : DB) (sid server_id : Nat) (map_name : String) (now : Int)
    (mp pc : Nat) (wt : Option String) (wn : Option Nat) (td : Option (Nat → Nat))
    (h : AtMostOneActive db)
    (hcnt : ∀ srv, (activeRowsFor dbX srv).length ≤ (activeRowsFor db srv).length)
    (honly : OnlyActive dbX.game_sessions server_id sid) (srv : Nat) :
    (activeRowsFor (new_session_block dbX (some sid) server_id map_name now mp pc wt wn td).1 srv).length ≤ 1 := by
  by_cases hb : server_id = srv
  · subst hb
    exact nsb_some_count_one dbX sid server_id map_name now mp pc wt wn td server_id honly
  · refine le_trans (nsb_some_count_le dbX sid server_id map_name now mp pc wt wn td srv) ?_
    have hbf : (server_id == srv) = false := by simpa using hb
    rw [hbf]
    simpa using le_trans (hcnt srv) (h srv)

theorem continue_amoa (dbY db : DB) (hgs : dbY.game_sessions = db.game_sessions)
    (h : AtMostOneActive db) (s : SessionRow) (wt : Option String) (cwn : Option Nat)
    (pc : Nat) (td : Option (Nat → Nat)) (srv : Nat) :
    (activeRowsFor (continue_session_update dbY s wt cwn pc td).1 srv).length ≤ 1 := by
  rcases continue_gs dbY s wt cwn pc td with ⟨f, hf, hmap⟩
  unfold activeRowsFor
  rw [hmap, hgs]
  refine le_trans (active_map_le _ srv f (fun r => (hf r).2) (fun r hr => ?_)) (h srv)
  rw [← (hf r).1]
  exact hr

theorem same_map_amoa (db : DB) (server_id : Nat) (map_name : String)
    (wt : Option String) (cwn : Option Nat) (pc mp : Nat) (td : Option (Nat → Nat))
    (now : Int) (h : AtMostOneActive db)
    (hq : latest_active_session db server_id = none ∨
          ∃ s0, latest_active_session db server_id = some s0 ∧ s0.map_name = map_name) :
    AtMostOneActive (same_map_branch db server_id map_name wt cwn pc mp td now).1 := by
  intro srv
  unfold same_map_branch
  split
  · -- no active session on (server, map)
    rename_i hq2
    have hempty : activeRowsFor db server_id = [] := by
      rcases hq with hq1 | ⟨s0, hq1, hmap⟩
      · unfold latest_active_session at hq1
        exact maxBy_eq_none _ _ hq1
      · exfalso
        unfold latest_active_session at hq1
        have hs0 := maxBy_mem _ _ _ hq1
        rw [List.mem_filter] at hs0
        unfold latest_active_session_on_map at hq2
        have hnil := maxBy_eq_none _ _ hq2
        have hmem2 : s0 ∈ db.game_sessions.filter
            (fun r => r.server_id == server_id && r.map_name == map_name && r.is_active) := by
          rw [List.mem_filter]
          refine ⟨hs0.1, ?_⟩
          have h2 := hs0.2
          rw [Bool.and_eq_true] at h2
          simp [h2.1, h2.2, hmap]
        rw [hnil] at hmem2
        cases hmem2
    rw [nsb_none_count]
    by_cases hb : server_id = srv
    · subst hb
      rw [hempty]
      simp
    · have hbf : (server_id == srv) = false := by simpa using hb
      rw [hbf]
      simpa using h srv
  · -- an active session s on (server, map) was found
    rename_i s hq2
    have hs := maxBy_mem _ _ _ hq2
    rw [List.mem_filter] at hs
    have hs2 := hs.2
    rw [Bool.and_eq_true, Bool.and_eq_true] at hs2
    have hssv : s.server_id = server_id := by
      have := hs2.1.1
      rwa [beq_iff_eq] at this
    have hsact : s.is_active = true := hs2.2
    have honly : OnlyActive db.game_sessions server_id s.id :=
      onlyActive_of_le_one (h server_id) hs.1 hssv hsact
    have hclose_cnt : ∀ (res : String) (dbX : DB),
        dbX.game_sessions = db.game_sessions.map (closeResultFn s.id now res) →
        ∀ srv', (activeRowsFor dbX srv').length ≤ (activeRowsFor db srv').length := by
      intro res dbX hgs srv'
      unfold activeRowsFor
      rw [hgs]
      exact active_map_le _ srv' _ (fun r => closeResultFn_sv _ _ _ r)
        (fun r hr => (closeResultFn_act _ _ _ r hr).1)
    have hclose_only : ∀ (res : String) (dbX : DB),
        dbX.game_sessions = db.game_sessions.map (closeResultFn s.id now res) →
        OnlyActive dbX.game_sessions server_id s.id := by
      intro res dbX hgs
      rw [hgs]
      exact onlyActive_map _ (fun r hr => (closeResultFn_act _ _ _ r hr).2.1) honly
    split
    · -- end_time already set: generic close + fold + insert
      exact nsb_amoa db db s.id server_id map_name now mp pc wt cwn td h
        (fun _ => le_refl _) honly srv
    · split
      · -- both wave numbers known
        split
        · -- regression
          split
          · -- round restart
            rename_i cw pw hpw hlt hcond
            refine nsb_amoa _ db s.id server_id map_name now mp pc wt _ td h
              (hclose_cnt (determine_session_result db s.id (some pw) ++ " - Round Restarted") _ ?_)
              (hclose_only (determine_session_result db s.id (some pw) ++ " - Round Restarted") _ ?_) srv <;>
              rw [fold_gs, snapshot_gs, close_result_gs']
          · -- benign reset
            exact continue_amoa db db rfl h s wt _ pc td srv
        · split
          · -- progression: optional snapshot then continue
            refine continue_amoa _ db ?_ h s wt _ pc td srv
            split
            · rw [snapshot_gs]
            · rfl
          · -- equal wave numbers
            exact continue_amoa db db rfl h s wt _ pc td srv
      · -- a wave number is unknown: timeout check
        split
        · split
          · -- timed out: close + snapshot + generic close + fold + insert
            refine nsb_amoa _ db s.id server_id map_name now mp pc wt _ td h
              (hclose_cnt "Loss - Timeout" _ ?_)
              (hclose_only "Loss - Timeout" _ ?_) srv <;>
              rw [snapshot_gs, close_result_gs']
          · exact continue_amoa db db rfl h s wt _ pc td srv
        · exact continue_amoa db db rfl h s wt _ pc td srv

theorem get_active_amoa (db : DB) (server_id : Nat) (map_name : String)
    (current_wave : Option String) (pc mp : Nat) (td : Option (Nat → Nat)) (now : Int)
    (h : AtMostOneActive db) :
    AtMostOneActive (get_active_session db server_id map_name current_wave pc mp td now).1 := by
  unfold get_active_session
  split
  · -- an active session for the server exists
    rename_i s0 hq1
    split
    · -- map change branch
      rename_i hne
      have hs0 := maxBy_mem _ _ _ hq1
      rw [List.mem_filter] at hs0
      have hs02 := hs0.2
      rw [Bool.and_eq_true, beq_iff_eq] at hs02
      have honly : OnlyActive db.game_sessions server_id s0.id :=
        onlyActive_of_le_one (h server_id) hs0.1 hs02.1 hs02.2
      intro srv
      rw [nsb_none_count]
      have hgs : (fold_session_stats
          (save_wave_end_snapshot
            (close_session_result db s0.id now
              (determine_session_result db s0.id s0.wave_number ++ " - Map Changed"))
            s0.id (some (s0.wave_number.getD 0)) "Map Changed" now) s0.id now).game_sessions
          = db.game_sessions.map (closeResultFn s0.id now
              (determine_session_result db s0.id s0.wave_number ++ " - Map Changed")) := by
        rw [fold_gs, snapshot_gs, close_result_gs']
      by_cases hb : server_id = srv
      · subst hb
        have hnil : activeRowsFor (fold_session_stats
            (save_wave_end_snapshot
              (close_session_result db s0.id now
                (determine_session_result db s0.id s0.wave_number ++ " - Map Changed"))
              s0.id (some (s0.wave_number.getD 0)) "Map Changed" now) s0.id now) server_id = [] := by
          unfold activeRowsFor
          rw [hgs]
          exact filter_close_nil _ (fun r => closeResultFn_sv _ _ _ r)
            (fun r hr => closeResultFn_act _ _ _ r hr) honly
        rw [hnil]
        simp
      · have hbf : (server_id == srv) = false := by simpa using hb
        rw [hbf]
        have hle : (activeRowsFor (fold_session_stats
            (save_wave_end_snapshot
              (close_session_result db s0.id now
                (determine_session_result db s0.id s0.wave_number ++ " - Map Changed"))
              s0.id (some (s0.wave_number.getD 0)) "Map Changed" now) s0.id now) srv).length
            ≤ (activeRowsFor db srv).length := by
          unfold activeRowsFor
          rw [hgs]
          exact active_map_le _ srv _ (fun r => closeResultFn_sv _ _ _ r)
            (fun r hr => (closeResultFn_act _ _ _ r hr).1)
        simpa using le_trans hle (h srv)
    · -- same map: defer to the same-map branch
      rename_i hmapeq
      refine same_map_amoa db server_id map_name current_wave _ pc mp td now h (Or.inr ⟨s0, hq1, ?_⟩)
      by_contra hne
      exact hmapeq hne
  · -- no active session for the server
    rename_i hq1
    exact same_map_amoa db server_id map_name current_wave _ pc mp td now h (Or.inl hq1)

/-- Startup recovery writes nothing: the loop either has nothing to visit or
aborts (swallowed `AttributeError`) before its first write. -/
theorem cleanup_id (db : DB) (now : Int) :
    cleanup_previous_sessions db now = db := by
  unfold cleanup_previous_sessions
  split <;> rfl

theorem cleanup_amoa (db : DB) (now : Int) (h : AtMostOneActive db) :
    AtMostOneActive (cleanup_previous_sessions db now) := by
  rw [cleanup_id]
  exact h

/-! ## find? infrastructure -/

theorem find?_map_pred {α : Type} (l : List α) (f : α → α) (p : α → Bool)
    (hinv : ∀ a, p (f a) = p a) :
    (l.map f).find? p = (l.find? p).map f := by
  induction l with
  | nil => rfl
  | cons a t ih =>
    rw [List.map_cons]
    cases hpa : p a with
    | true =>
      rw [List.find?_cons_of_pos _ (by rw [hinv]; exact hpa),
          List.find?_cons_of_pos _ hpa]
      rfl
    | false =>
      rw [List.find?_cons_of_neg _ (by rw [hinv]; simp [hpa]),
          List.find?_cons_of_neg _ (by simp [hpa]), ih]

theorem find?_append_some {α : Type} {l₁ : List α} (l₂ : List α) {p : α → Bool} {a : α}
    (h : l₁.find? p = some a) : (l₁ ++ l₂).find? p = some a := by
  rw [List.find?_append, h]
  rfl

theorem find?_append_none {α : Type} {l₁ : List α} (l₂ : List α) {p : α → Bool}
    (h : l₁.find? p = none) : (l₁ ++ l₂).find? p = l₂.find? p := by
  rw [List.find?_append, h]
  rfl

/-- After `save_wave_end_snapshot` with a known wave number and a valid
session id, a matching record exists (whether freshly inserted or already
present). -/
theorem snapshot_ensures (db : DB) (sid : Nat) (wn : Nat) (reason : String) (t : Int)
    (hsid : sid ≠ 0) :
    ∃ w ∈ (save_wave_end_snapshot db sid (some wn) reason t).wave_end_records,
      w.session_id = sid ∧ w.wave_number = wn ∧ w.reason = reason := by
  unfold save_wave_end_snapshot
  rw [if_neg hsid]
  dsimp only
  split
  · rename_i hany
    rcases List.any_eq_true.mp hany with ⟨w, hw, hp⟩
    rw [Bool.and_eq_true, Bool.and_eq_true] at hp
    exact ⟨w, hw, by rw [← beq_iff_eq]; exact hp.1.1,
      by rw [← beq_iff_eq]; exact hp.1.2, by rw [← beq_iff_eq]; exact hp.2⟩
  · exact ⟨_, List.mem_append_right _ (List.mem_singleton.mpr rfl), rfl, rfl, rfl⟩

/-! ## Effect of the aggregation fold on `player_stats` -/

theorem totalScoreOf_eq {db' db : DB} {steam : String}
    (h : statsBySteam db' steam = statsBySteam db steam) :
    totalScoreOf db' steam = totalScoreOf db steam := by
  unfold totalScoreOf
  rw [h]

theorem totalPlaytimeOf_eq {db' db : DB} {steam : String}
    (h : statsBySteam db' steam = statsBySteam db steam) :
    totalPlaytimeOf db' steam = totalPlaytimeOf db steam := by
  unfold totalPlaytimeOf
  rw [h]

theorem sessionCountOf_eq {db' db : DB} {steam : String}
    (h : statsBySteam db' steam = statsBySteam db steam) :
    sessionCountOf db' steam = sessionCountOf db steam := by
  unfold sessionCountOf
  rw [h]

theorem statsBySteam_of_ps {db' db : DB} (h : db'.player_stats = db.player_stats)
    (steam : String) : statsBySteam db' steam = statsBySteam db steam := by
  unfold statsBySteam
  rw [h]

theorem upsert_ps_obs (db : DB) (p : PlayerRecordRow) (tss pt t : Int) :
    totalScoreOf (upsert_player_stats db p tss pt t).1 p.steam_id
      = totalScoreOf db p.steam_id + tss ∧
    totalPlaytimeOf (upsert_player_stats db p tss pt t).1 p.steam_id
      = totalPlaytimeOf db p.steam_id + pt ∧
    sessionCountOf (upsert_player_stats db p tss pt t).1 p.steam_id
      = sessionCountOf db p.steam_id + 1 := by
  cases hps : statsBySteam db p.steam_id with
  | some ps =>
    have hps' : db.player_stats.find? (fun s => s.steam_id == p.steam_id) = some ps := hps
    have hP := List.find?_some hps'
    unfold upsert_player_stats
    rw [hps]
    dsimp only
    have h1 : statsBySteam ({ db with player_stats := db.player_stats.map (fun s =>
        if s.steam_id == p.steam_id then
          { s with
            player_name := p.player_name,
            total_score := ps.total_score + tss,
            total_playtime_seconds := ps.total_playtime_seconds + pt,
            session_count := ps.session_count + 1,
            last_updated := t }
        else s) }) p.steam_id
        = some { id := ps.id, steam_id := ps.steam_id, player_name := p.player_name,
                 total_score := ps.total_score + tss,
                 total_playtime_seconds := ps.total_playtime_seconds + pt,
                 session_count := ps.session_count + 1,
                 last_updated := t } := by
      unfold statsBySteam
      dsimp only
      rw [find?_map_pred _ _ _ (fun a => by split <;> rfl)]
      rw [hps', Option.map_some']
      rw [if_pos hP]
    unfold totalScoreOf totalPlaytimeOf sessionCountOf
    rw [h1, hps]
    exact ⟨rfl, rfl, rfl⟩
  | none =>
    have hps' : db.player_stats.find? (fun s => s.steam_id == p.steam_id) = none := hps
    unfold upsert_player_stats
    rw [hps]
    dsimp only
    have h1 : statsBySteam ({ db with
        player_stats := db.player_stats ++
          [⟨db.nextStatsId, p.steam_id, p.player_name, tss, pt, 1, t⟩],
        nextStatsId := db.nextStatsId + 1 }) p.steam_id
        = some ⟨db.nextStatsId, p.steam_id, p.player_name, tss, pt, 1, t⟩ := by
      unfold statsBySteam
      dsimp only
      rw [find?_append_none _ hps']
      rw [List.find?_cons_of_pos _ (by simp)]
    unfold totalScoreOf totalPlaytimeOf sessionCountOf
    rw [h1, hps]
    dsimp only
    refine ⟨by omega, by omega, by omega⟩

theorem upsert_ps_frame (db : DB) (p : PlayerRecordRow) (tss pt t : Int)
    (steam : String) (hne : p.steam_id ≠ steam) :
    statsBySteam (upsert_player_stats db p tss pt t).1 steam = statsBySteam db steam := by
  cases hps : statsBySteam db p.steam_id with
  | some ps =>
    unfold upsert_player_stats
    rw [hps]
    unfold statsBySteam
    dsimp only
    rw [find?_map_pred _ _ _ (fun a => by split <;> rfl)]
    cases hfa : db.player_stats.find? (fun s => s.steam_id == steam) with
    | none => rfl
    | some a =>
      have hPa := List.find?_some hfa
      rw [Option.map_some']
      have hne2 : (a.steam_id == p.steam_id) = false := by
        rw [beq_iff_eq] at hPa
        rw [beq_eq_false_iff_ne, hPa]
        exact fun h => hne h.symm
      rw [if_neg (by rw [hne2]; simp)]
  | none =>
    have hps' : db.player_stats.find? (fun s => s.steam_id == p.steam_id) = none := hps
    unfold upsert_player_stats
    rw [hps]
    dsimp only
    unfold statsBySteam
    dsimp only
    rw [List.find?_append]
    have hnew : List.find? (fun s => s.steam_id == steam)
        [(⟨db.nextStatsId, p.steam_id, p.player_name, tss, pt, 1, t⟩ : PlayerStatsRow)]
        = none := by
      rw [List.find?_cons_of_neg _ (by simp [hne]), List.find?_nil]
    rw [hnew, Option.or_none]

theorem refresh_stints_frame (db : DB) (sid : Nat) (t : Int) (q : PlayerRecordRow)
    (pid : Nat) (hne : q.id ≠ pid) :
    stintsFor (refresh_current_stint db sid t q) pid sid = stintsFor db pid sid := by
  unfold refresh_current_stint
  cases q.team_id with
  | none => rfl
  | some ct =>
    dsimp only
    split
    · unfold stintsFor
      dsimp only
      apply filter_map_eq_self
      · intro a
        split <;> rfl
      · intro a ha
        have h1 : (a.player_id == q.id) = false := by
          rw [Bool.and_eq_true, beq_iff_eq] at ha
          rw [beq_eq_false_iff_ne, ha.1]
          exact fun h => hne h.symm
        rw [if_neg (by rw [h1]; simp)]
    · unfold stintsFor
      dsimp only
      rw [List.filter_append]
      have h2 : List.filter (fun ts => ts.player_id == pid && ts.session_id == sid)
          [(⟨q.id, sid, ct, 0, q.current_score, q.first_seen, t⟩ : StintRow)] = [] := by
        rw [List.filter_eq_nil_iff]
        intro a ha
        rw [List.mem_singleton] at ha
        rw [ha]
        simp [hne]
      rw [h2, List.append_nil]

theorem process_obs (db : DB) (sid : Nat) (t : Int) (p : PlayerRecordRow)
    (hbot : p.is_bot = false) :
    totalScoreOf (process_player_playtime db sid t p) p.steam_id
      = totalScoreOf db p.steam_id + session_score_earned db p sid ∧
    totalPlaytimeOf (process_player_playtime db sid t p) p.steam_id
      = totalPlaytimeOf db p.steam_id + (p.last_seen - p.first_seen) ∧
    sessionCountOf (process_player_playtime db sid t p) p.steam_id
      = sessionCountOf db p.steam_id + 1 := by
  unfold process_player_playtime
  rw [hbot]
  rw [if_neg (by simp)]
  dsimp only
  have hfold : ∀ (l : List StintRow) (d : DB) (stid : Nat) (pt : Int) (n : Nat),
      statsBySteam (l.foldl (fun d ts => upsert_team_stat d sid t stid pt n ts) d)
          p.steam_id
        = statsBySteam d p.steam_id :=
    fun l d stid pt n => statsBySteam_of_ps
      (foldl_pres DB.player_stats _ (fun b a => upsert_ts_stats b sid t stid pt n a) l d)
      p.steam_id
  have hrf : statsBySteam (refresh_current_stint db sid t p) p.steam_id
      = statsBySteam db p.steam_id :=
    statsBySteam_of_ps (refresh_stats db sid t p) p.steam_id
  have hup := upsert_ps_obs (refresh_current_stint db sid t p) p
    (session_score_earned db p sid) (p.last_seen - p.first_seen) t
  refine ⟨?_, ?_, ?_⟩
  · rw [totalScoreOf_eq (hfold _ _ _ _ _), hup.1, totalScoreOf_eq hrf]
  · rw [totalPlaytimeOf_eq (hfold _ _ _ _ _), hup.2.1, totalPlaytimeOf_eq hrf]
  · rw [sessionCountOf_eq (hfold _ _ _ _ _), hup.2.2, sessionCountOf_eq hrf]

theorem process_frame (db : DB) (sid : Nat) (t : Int) (q : PlayerRecordRow)
    (steam : String) (hne : q.steam_id ≠ steam) :
    statsBySteam (process_player_playtime db sid t q) steam = statsBySteam db steam := by
  unfold process_player_playtime
  split
  · rfl
  · dsimp only
    have hfold : ∀ (l : List StintRow) (d : DB) (stid : Nat) (pt : Int) (n : Nat),
        statsBySteam (l.foldl (fun d ts => upsert_team_stat d sid t stid pt n ts) d) steam
          = statsBySteam d steam :=
      fun l d stid pt n => statsBySteam_of_ps
        (foldl_pres DB.player_stats _ (fun b a => upsert_ts_stats b sid t stid pt n a) l d)
        steam
    rw [hfold]
    rw [upsert_ps_frame _ q _ _ t steam hne]
    exact statsBySteam_of_ps (refresh_stats db sid t q) steam

theorem process_stints (db : DB) (sid : Nat) (t : Int) (q : PlayerRecordRow)
    (pid : Nat) (hne : q.id ≠ pid) :
    stintsFor (process_player_playtime db sid t q) pid sid = stintsFor db pid sid := by
  unfold process_player_playtime
  split
  · rfl
  · dsimp only
    have hfold : ∀ (l : List StintRow) (d : DB) (stid : Nat) (pt : Int) (n : Nat),
        stintsFor (l.foldl (fun d ts => upsert_team_stat d sid t stid pt n ts) d) pid sid
          = stintsFor d pid sid := by
      intro l d stid pt n
      unfold stintsFor
      rw [foldl_pres DB.player_team_scores _ (fun b a => upsert_ts_pts b sid t stid pt n a) l d]
    rw [hfold]
    have hup : (upsert_player_stats (refresh_current_stint db sid t q) q
        (session_score_earned db q sid) (q.last_seen - q.first_seen) t).1.player_team_scores
        = (refresh_current_stint db sid t q).player_team_scores :=
      upsert_ps_pts _ q _ _ t
    unfold stintsFor
    rw [hup]
    exact refresh_stints_frame db sid t q pid hne

theorem earned_frame (db : DB) (sid : Nat) (t : Int) (q p : PlayerRecordRow)
    (hne : q.id ≠ p.id) :
    session_score_earned (process_player_playtime db sid t q) p sid
      = session_score_earned db p sid := by
  unfold session_score_earned
  rw [process_stints db sid t q p.id hne]

theorem foldl_process_frame (sid : Nat) (t : Int) (steam : String) :
    ∀ (L : List PlayerRecordRow) (db : DB), (∀ q ∈ L, q.steam_id ≠ steam) →
      statsBySteam (L.foldl (fun d q => process_player_playtime d sid t q) db) steam
        = statsBySteam db steam := by
  intro L
  induction L with
  | nil => intro db _; rfl
  | cons q L' ih =>
    intro db hq
    rw [List.foldl_cons, ih _ (fun a ha => hq a (List.mem_cons_of_mem q ha))]
    exact process_frame db sid t q steam (hq q (List.mem_cons_self q L'))

theorem foldl_process_obs (sid : Nat) (t : Int) (p : PlayerRecordRow)
    (hbot : p.is_bot = false) :
    ∀ (L : List PlayerRecordRow) (db : DB), p ∈ L →
      L.Pairwise (fun a b => a.steam_id ≠ b.steam_id ∧ a.id ≠ b.id) →
      totalScoreOf (L.foldl (fun d q => process_player_playtime d sid t q) db) p.steam_id
        = totalScoreOf db p.steam_id + session_score_earned db p sid ∧
      totalPlaytimeOf (L.foldl (fun d q => process_player_playtime d sid t q) db) p.steam_id
        = totalPlaytimeOf db p.steam_id + (p.last_seen - p.first_seen) ∧
      sessionCountOf (L.foldl (fun d q => process_player_playtime d sid t q) db) p.steam_id
        = sessionCountOf db p.steam_id + 1 := by
  intro L
  induction L with
  | nil => intro db hp; cases hp
  | cons q L' ih =>
    intro db hp hpw
    rw [List.pairwise_cons] at hpw
    rw [List.foldl_cons]
    rcases List.mem_cons.mp hp with hqp | hp'
    · -- the head is the player of interest; the tail cannot mention its steam id
      have hq' : ∀ q' ∈ L', q'.steam_id ≠ p.steam_id := by
        intro q' h
        have := (hpw.1 q' h).1
        rw [← hqp] at this
        exact fun he => this he.symm
      have hfr := foldl_process_frame sid t p.steam_id L'
        (process_player_playtime db sid t q) hq'
      rw [← hqp] at *
      have hproc := process_obs db sid t p hbot
      exact ⟨by rw [totalScoreOf_eq hfr, hproc.1],
             by rw [totalPlaytimeOf_eq hfr, hproc.2.1],
             by rw [sessionCountOf_eq hfr, hproc.2.2]⟩
    · -- the player of interest sits in the tail
      have hrel := hpw.1 p hp'
      have hih := ih (process_player_playtime db sid t q) hp' hpw.2
      have hfr : statsBySteam (process_player_playtime db sid t q) p.steam_id
          = statsBySteam db p.steam_id :=
        process_frame db sid t q p.steam_id hrel.1
      rw [totalScoreOf_eq hfr, totalPlaytimeOf_eq hfr, sessionCountOf_eq hfr,
          earned_frame db sid t q p hrel.2] at hih
      exact hih

/-- The observable effect of `update_player_playtimes` on one non-bot player
of the session, assuming the schema's uniqueness constraints (distinct steam
ids and row ids among the session's non-bot player records). -/
theorem playtimes_obs (db : DB) (sid : Nat) (t : Int) (p : PlayerRecordRow)
    (hsid : sid ≠ 0) (hmem : p ∈ db.player_records) (hsess : p.session_id = sid)
    (hbot : p.is_bot = false)
    (hpair : (db.player_records.filter
        (fun q => q.session_id == sid && !q.is_bot)).Pairwise
        (fun a b => a.steam_id ≠ b.steam_id ∧ a.id ≠ b.id)) :
    totalScoreOf (update_player_playtimes db sid t) p.steam_id
      = totalScoreOf db p.steam_id + session_score_earned db p sid ∧
    totalPlaytimeOf (update_player_playtimes db sid t) p.steam_id
      = totalPlaytimeOf db p.steam_id + (p.last_seen - p.first_seen) ∧
    sessionCountOf (update_player_playtimes db sid t) p.steam_id
      = sessionCountOf db p.steam_id + 1 := by
  unfold update_player_playtimes
  rw [if_neg hsid]
  exact foldl_process_obs sid t p hbot _ db
    (List.mem_filter.mpr ⟨hmem, by simp [hsess, hbot]⟩) hpair

/-! ## Symbolic evaluation of the engine's branches -/

theorem closePlainFn_id (sid : Nat) (now : Int) (r : SessionRow) :
    (closePlainFn sid now r).id = r.id := by
  unfold closePlainFn
  split <;> rfl

theorem close_plain_nsid (db : DB) (sid : Nat) (now : Int) :
    (close_session_plain db sid now).nextSessionId = db.nextSessionId := rfl

theorem close_plain_wer (db : DB) (sid : Nat) (now : Int) :
    (close_session_plain db sid now).wave_end_records = db.wave_end_records := rfl

theorem nsb_some_snd (db : DB) (sid : Nat) (server_id : Nat) (map_name : String)
    (now : Int) (mp pc : Nat) (wt : Option String) (wn : Option Nat)
    (td : Option (Nat → Nat)) :
    (new_session_block db (some sid) server_id map_name now mp pc wt wn td).2
      = db.nextSessionId := by
  unfold new_session_block insert_new_session
  dsimp only
  rw [fold_nsid, close_plain_nsid]

theorem nsb_some_wer (db : DB) (sid : Nat) (server_id : Nat) (map_name : String)
    (now : Int) (mp pc : Nat) (wt : Option String) (wn : Option Nat)
    (td : Option (Nat → Nat)) :
    (new_session_block db (some sid) server_id map_name now mp pc wt wn td).1.wave_end_records
      = db.wave_end_records := by
  unfold new_session_block insert_new_session
  dsimp only
  rw [fold_wer, close_plain_wer]

theorem nsb_find_closed (dbX : DB) (sid : Nat) (r : SessionRow) (server_id : Nat)
    (map_name : String) (now : Int) (mp pc : Nat) (wt : Option String)
    (wn : Option Nat) (td : Option (Nat → Nat))
    (hfind : dbX.game_sessions.find? (fun x => x.id == sid) = some r) :
    sessionById (new_session_block dbX (some sid) server_id map_name now mp pc wt wn td).1 sid
      = some { r with is_active := false, end_time := some now } := by
  unfold sessionById
  rw [nsb_some_gs]
  apply find?_append_some
  rw [find?_map_pred _ _ _ (fun a => by rw [closePlainFn_id]), hfind, Option.map_some']
  unfold closePlainFn
  rw [if_pos (List.find?_some hfind)]

theorem nsb_new_row_mem (dbX : DB) (sid : Nat) (server_id : Nat) (map_name : String)
    (now : Int) (mp pc : Nat) (wt : Option String) (wn : Option Nat)
    (td : Option (Nat → Nat)) :
    ∃ r ∈ (new_session_block dbX (some sid) server_id map_name now mp pc wt wn td).1.game_sessions,
      r.id = dbX.nextSessionId ∧ r.is_active = true ∧ r.server_id = server_id ∧
      r.map_name = map_name ∧ r.start_time = now := by
  unfold new_session_block insert_new_session
  dsimp only
  refine ⟨_, List.mem_append_right _ (List.mem_singleton.mpr rfl), ?_, rfl, rfl, rfl, rfl⟩
  show (fold_session_stats (close_session_plain dbX sid now) sid now).nextSessionId
    = dbX.nextSessionId
  rw [fold_nsid, close_plain_nsid]

theorem close_result_nsid (db : DB) (sid : Nat) (now : Int) (res : String) :
    (close_session_result db sid now res).nextSessionId = db.nextSessionId := rfl

theorem close_result_find (db : DB) (sid : Nat) (now : Int) (res : String)
    (r : SessionRow)
    (hfind : db.game_sessions.find? (fun x => x.id == sid) = some r) :
    (close_session_result db sid now res).game_sessions.find? (fun x => x.id == sid)
      = some { r with is_active := false, end_time := some now, session_result := some res } := by
  rw [close_result_gs',
      find?_map_pred _ _ _ (fun a => by rw [closeResultFn_id]), hfind, Option.map_some']
  unfold closeResultFn
  rw [if_pos (List.find?_some hfind)]

theorem continue_find_active (db : DB) (s : SessionRow) (wt : Option String)
    (wn : Option Nat) (pc : Nat) (td : Option (Nat → Nat))
    (hfind : sessionById db s.id = some s) :
    (sessionById (continue_session_update db s wt wn pc td).1 s.id).map (fun r => r.is_active)
      = some s.is_active := by
  unfold continue_session_update sessionById
  unfold sessionById at hfind
  cases td with
  | none =>
    dsimp only
    rw [find?_map_pred _ _ _ (fun a => by split <;> rfl), hfind, Option.map_some',
        Option.map_some']
    have hP : (s.id == s.id) = true := by simp
    rw [if_pos hP]
  | some f =>
    dsimp only
    rw [find?_map_pred _ _ _ (fun a => by split <;> rfl), hfind, Option.map_some',
        Option.map_some']
    have hP : (s.id == s.id) = true := by simp
    rw [if_pos hP]

/-- Reduction of a full engine run in the wave-regression situation. -/
theorem engine_regression_reduce (db : DB) (server_id : Nat) (map_name : String)
    (wt : Option String) (pc mp : Nat) (td : Option (Nat → Nat)) (now : Int)
    (s : SessionRow) (cw pw : Nat)
    (hq1 : latest_active_session db server_id = some s)
    (hq2 : latest_active_session_on_map db server_id map_name = some s)
    (hmap : s.map_name = map_name)
    (hend : s.end_time = none)
    (hparse : extract_wave_number wt = some cw)
    (hpw : s.wave_number = some pw)
    (hlt : cw < pw) :
    get_active_session db server_id map_name wt pc mp td now
      = if 0 < same_wave_count db s.id cw ∨ cw = 1 then
          new_session_block
            (fold_session_stats
              (save_wave_end_snapshot
                (close_session_result db s.id now
                  (determine_session_result db s.id (some pw) ++ " - Round Restarted"))
                s.id (some pw) "Round Restarted" now) s.id now)
            (some s.id) server_id map_name now mp pc wt (some cw) td
        else continue_session_update db s wt (some cw) pc td := by
  unfold get_active_session
  dsimp only
  rw [hparse, hq1]
  dsimp only
  rw [if_neg (fun h => h hmap)]
  unfold same_map_branch
  rw [hq2]
  dsimp only
  rw [hend]
  rw [if_neg (by simp)]
  rw [hpw]
  dsimp only
  rw [if_pos hlt]

/-- Reduction of a full engine run when a wave index is unknown. -/
theorem engine_unknown_wave_reduce (db : DB) (server_id : Nat) (map_name : String)
    (wt : Option String) (pc mp : Nat) (td : Option (Nat → Nat)) (now : Int)
    (s : SessionRow) (cwn : Option Nat)
    (hq1 : latest_active_session db server_id = some s)
    (hq2 : latest_active_session_on_map db server_id map_name = some s)
    (hmap : s.map_name = map_name)
    (hend : s.end_time = none)
    (hcwn : extract_wave_number wt = cwn)
    (hwave : cwn = none ∨ s.wave_number = none) :
    get_active_session db server_id map_name wt pc mp td now
      = match last_active_status db s.id with
        | some st =>
          if 900 < now - st.timestamp then
            new_session_block
              (save_wave_end_snapshot
                (close_session_result db s.id now "Loss - Timeout")
                s.id (some (s.wave_number.getD 0)) "Timeout" now)
              (some s.id) server_id map_name now mp pc wt cwn td
          else continue_session_update db s wt cwn pc td
        | none => continue_session_update db s wt cwn pc td := by
  unfold get_active_session
  dsimp only
  rw [hcwn, hq1]
  dsimp only
  rw [if_neg (fun h => h hmap)]
  unfold same_map_branch
  rw [hq2]
  dsimp only
  rw [hend]
  rw [if_neg (by simp)]
  rcases hwave with hw | hw
  · subst hw
    rfl
  · rw [hw]
    cases cwn with
    | none => rfl
    | some c => rfl

/-! ## Claim theorems -/

/-- C3: the claim says the per-session stats fold runs exactly once when a
session transitions to closed.  On the round-restart path the code folds the
session twice: once in the restart branch and once again in the generic
new-session block.  Evaluating the engine on a database with one active
session at wave 3 and one non-bot player with score 10, a snapshot at
"Wave 1" closes the session once yet leaves `session_count = 2` and doubled
score/playtime in `player_stats`. -/
theorem C3_round_restart_folds_twice :
    ((get_active_session dbA 1 "Farm" (some "Wave 1") 2 10 none 100).1.player_stats.map
        (fun s => (s.steam_id, s.total_score, s.total_playtime_seconds, s.session_count))
      = [("s1", 20, 120, 2)]) ∧
    sessionCountOf dbA "s1" = 0 ∧
    ((get_active_session dbA 1 "Farm" (some "Wave 1") 2 10 none 100).1.game_sessions.map
        (fun r => (r.id, r.is_active))
      = [(1, false), (2, true)]) :=
  ⟨rfl, rfl, rfl⟩

/-- C5 (counterexample): at wave 7 with one survivor the code returns
"Loss - No Survivors" even though the survivor count is positive, where the
claim's case split would produce "Loss - Ended on Wave 7" (or a win); so the
"zero survivors" qualifier of the claim is not what the code implements. -/
theorem C5_counterexample_wave7_survivors :
    determine_session_result dbA 1 (some 7) = "Loss - No Survivors" ∧
    (sessionById dbA 1).map (fun r => r.team1_player_count) = some 1 ∧
    "Loss - No Survivors" ≠ "Loss - Ended on Wave 7" ∧
    "Loss - No Survivors" ≠ "Win - Completed Wave 6" :=
  ⟨rfl, rfl, by decide, by decide⟩

/-- C5 (amended): for a session row found by id, `determine_session_result`
returns "Unknown Result - Missing Wave Data" on an unknown wave;
"Win - Completed Wave 6" exactly at wave 6 with a positive tracked survivor
count; "Loss - No Survivors" whenever the wave is ≥ 6 and the win case does
not apply — including when survivors are positive at waves beyond 6; and
"Loss - Ended on Wave n" below wave 6. -/
theorem C5_determine_session_result_cases (db : DB) (sid : Nat) (s : SessionRow)
    (hfind : sessionById db sid = some s) :
    (determine_session_result db sid none = "Unknown Result - Missing Wave Data") ∧
    (0 < s.team1_player_count →
      determine_session_result db sid (some 6) = "Win - Completed Wave 6") ∧
    (∀ w, 6 ≤ w → ¬(w = 6 ∧ 0 < s.team1_player_count) →
      determine_session_result db sid (some w) = "Loss - No Survivors") ∧
    (∀ w, w < 6 →
      determine_session_result db sid (some w) = "Loss - Ended on Wave " ++ toString w) := by
  unfold determine_session_result
  rw [hfind]
  refine ⟨rfl, ?_, ?_, ?_⟩
  · intro hsurv
    dsimp only
    rw [if_pos ⟨rfl, hsurv⟩]
  · intro w h6 hnot
    dsimp only
    rw [if_neg hnot, if_pos h6]
  · intro w hlt
    dsimp only
    rw [if_neg (fun hc => absurd hc.1 (by omega)), if_neg (by omega)]

/-- Witness for C5: the amended characterisation instantiated on a concrete
database whose session has one survivor. -/
theorem C5_witness :
    sessionById dbA 1 = some sessA ∧
    ((determine_session_result dbA 1 none = "Unknown Result - Missing Wave Data") ∧
     (0 < sessA.team1_player_count →
       determine_session_result dbA 1 (some 6) = "Win - Completed Wave 6") ∧
     (∀ w, 6 ≤ w → ¬(w = 6 ∧ 0 < sessA.team1_player_count) →
       determine_session_result dbA 1 (some w) = "Loss - No Survivors") ∧
     (∀ w, w < 6 →
       determine_session_result dbA 1 (some w) = "Loss - Ended on Wave " ++ toString w)) :=
  ⟨rfl, C5_determine_session_result_cases dbA 1 sessA rfl⟩

/-- C10: calling the session-manager snapshot with an unknown wave number
stores the record with wave number 0, and the stored reason is the supplied
one only for "Timeout" and "Server Restart"; every other reason is replaced
by "Game Start". -/
theorem C10_unknown_wave_records_zero_and_rewrites_reason (db : DB) (sid : Nat)
    (reason : String) (t : Int) (hsid : sid ≠ 0)
    (hnone : (db.wave_end_records.any (fun r => r.session_id == sid &&
        r.wave_number == 0 &&
        r.reason == (if reason = "Timeout" ∨ reason = "Server Restart" then reason
                     else "Game Start"))) = false) :
    (save_wave_end_snapshot db sid none reason t).wave_end_records
      = db.wave_end_records ++
        [⟨db.nextWaveEndId, sid, 0, t,
          if reason = "Timeout" ∨ reason = "Server Restart" then reason
          else "Game Start"⟩] := by
  unfold save_wave_end_snapshot
  rw [if_neg hsid]
  dsimp only
  simp only [Option.getD_none]
  rw [if_neg (by rw [hnone]; simp)]

/-- Witness for C10: snapshotting with wave `none` and reason "Map Changed"
on a fresh database stores one record with wave 0 and reason "Game Start". -/
theorem C10_witness :
    ((1 : Nat) ≠ 0) ∧
    (dbA.wave_end_records.any (fun r => r.session_id == 1 && r.wave_number == 0 &&
        r.reason == (if ("Map Changed" : String) = "Timeout" ∨
            ("Map Changed" : String) = "Server Restart" then "Map Changed"
          else "Game Start"))) = false ∧
    (save_wave_end_snapshot dbA 1 none "Map Changed" 50).wave_end_records
      = dbA.wave_end_records ++
        [⟨dbA.nextWaveEndId, 1, 0, 50,
          if ("Map Changed" : String) = "Timeout" ∨
              ("Map Changed" : String) = "Server Restart" then "Map Changed"
          else "Game Start"⟩] :=
  ⟨by decide, by decide,
   C10_unknown_wave_records_zero_and_rewrites_reason dbA 1 "Map Changed" 50
     (by decide) (by decide)⟩

/-- C4 (counterexample): the claim says the replacement session after a
timeout closure is created on the next polling cycle, not within the same
cycle.  On a database whose active session has unknown wave fields and whose
last populated status record is 1000 seconds old, a single engine run both
closes the session with "Loss - Timeout" and inserts the replacement active
session (id 2, started now) in the same call. -/
theorem C4_counterexample_same_cycle_replacement :
    ((sessionById (get_active_session dbT 1 "Farm" none 2 10 none 1000).1 1).map
        (fun r => (r.is_active, r.session_result)) = some (false, some "Loss - Timeout")) ∧
    (get_active_session dbT 1 "Farm" none 2 10 none 1000).2 = 2 ∧
    ((sessionById (get_active_session dbT 1 "Farm" none 2 10 none 1000).1 2).map
        (fun r => (r.is_active, r.start_time)) = some (true, 1000)) ∧
    sessionById dbT 2 = none :=
  ⟨rfl, rfl, rfl, rfl⟩

/-- C6: with a valid session id, no pre-existing record for the
(session, wave, reason) triple and a fresh `wave_end_id`, one snapshot call
inserts exactly one `wave_end_records` row for the triple together with one
`player_wave_scores` row per player record of the session, and a second call
with the same triple is a no-op: the state is unchanged. -/
theorem C6_snapshot_idempotent (db : DB) (sid : Nat) (wn : Nat) (reason : String)
    (t₁ t₂ : Int) (hsid : sid ≠ 0)
    (hnone : ∀ r ∈ db.wave_end_records,
      ¬(r.session_id = sid ∧ r.wave_number = wn ∧ r.reason = reason))
    (hfresh : ∀ p ∈ db.player_wave_scores, p.wave_end_id ≠ db.nextWaveEndId) :
    save_wave_end_snapshot (save_wave_end_snapshot db sid (some wn) reason t₁)
        sid (some wn) reason t₂
      = save_wave_end_snapshot db sid (some wn) reason t₁ ∧
    ((save_wave_end_snapshot db sid (some wn) reason t₁).wave_end_records.filter
        (fun r => r.session_id == sid && r.wave_number == wn && r.reason == reason)).length
      = 1 ∧
    ((save_wave_end_snapshot db sid (some wn) reason t₁).player_wave_scores.filter
        (fun p => p.wave_end_id == db.nextWaveEndId)).length
      = (db.player_records.filter (fun p => p.session_id == sid)).length := by
  have hany : (db.wave_end_records.any
      (fun r => r.session_id == sid && r.wave_number == wn && r.reason == reason)) = false := by
    rw [List.any_eq_false]
    intro r hr hp
    rw [Bool.and_eq_true, Bool.and_eq_true, beq_iff_eq, beq_iff_eq, beq_iff_eq] at hp
    exact hnone r hr ⟨hp.1.1, hp.1.2, hp.2⟩
  have hdb1 : save_wave_end_snapshot db sid (some wn) reason t₁
      = { db with
          wave_end_records := db.wave_end_records ++ [⟨db.nextWaveEndId, sid, wn, t₁, reason⟩],
          player_wave_scores := db.player_wave_scores ++
            ((db.player_records.filter (fun p => p.session_id == sid)).map (fun p =>
              PlayerWaveScoreRow.mk db.nextWaveEndId p.id p.steam_id p.player_name
                p.team_id p.current_score p.is_bot)),
          nextWaveEndId := db.nextWaveEndId + 1 } := by
    unfold save_wave_end_snapshot
    rw [if_neg hsid]
    dsimp only
    simp only [Option.getD_some]
    rw [if_neg (by rw [hany]; simp)]
  refine ⟨?_, ?_, ?_⟩
  · rw [hdb1]
    unfold save_wave_end_snapshot
    rw [if_neg hsid]
    dsimp only
    simp only [Option.getD_some]
    rw [if_pos]
    rw [List.any_append]
    apply Bool.or_eq_true_iff.mpr
    right
    simp
  · rw [hdb1]
    dsimp only
    rw [List.filter_append, List.length_append]
    have h0 : (db.wave_end_records.filter
        (fun r => r.session_id == sid && r.wave_number == wn && r.reason == reason)).length = 0 := by
      rw [List.length_eq_zero, List.filter_eq_nil_iff]
      intro r hr hp
      rw [Bool.and_eq_true, Bool.and_eq_true, beq_iff_eq, beq_iff_eq, beq_iff_eq] at hp
      exact hnone r hr ⟨hp.1.1, hp.1.2, hp.2⟩
    rw [h0]
    simp
  · rw [hdb1]
    dsimp only
    rw [List.filter_append, List.length_append]
    have h0 : (db.player_wave_scores.filter
        (fun p => p.wave_end_id == db.nextWaveEndId)).length = 0 := by
      rw [List.length_eq_zero, List.filter_eq_nil_iff]
      intro p hp hb
      rw [beq_iff_eq] at hb
      exact hfresh p hp hb
    rw [h0, Nat.zero_add]
    have hall : ((db.player_records.filter (fun p => p.session_id == sid)).map (fun p =>
        PlayerWaveScoreRow.mk db.nextWaveEndId p.id p.steam_id p.player_name
          p.team_id p.current_score p.is_bot)).filter
        (fun p => p.wave_end_id == db.nextWaveEndId)
        = (db.player_records.filter (fun p => p.session_id == sid)).map (fun p =>
            PlayerWaveScoreRow.mk db.nextWaveEndId p.id p.steam_id p.player_name
              p.team_id p.current_score p.is_bot) := by
      rw [List.filter_eq_self]
      intro a ha
      rcases List.mem_map.mp ha with ⟨p, hp, hpa⟩
      rw [← hpa]
      simp
    rw [hall, List.length_map]

/-- Witness for C6: on a database with one player record in session 1 and no
prior snapshot, double invocation leaves one record and one player score row. -/
theorem C6_witness :
    ((1 : Nat) ≠ 0) ∧
    (∀ r ∈ dbA.wave_end_records, ¬(r.session_id = 1 ∧ r.wave_number = 3 ∧ r.reason = "Wave Completed")) ∧
    (∀ p ∈ dbA.player_wave_scores, p.wave_end_id ≠ dbA.nextWaveEndId) ∧
    (save_wave_end_snapshot (save_wave_end_snapshot dbA 1 (some 3) "Wave Completed" 70)
        1 (some 3) "Wave Completed" 80
      = save_wave_end_snapshot dbA 1 (some 3) "Wave Completed" 70 ∧
    ((save_wave_end_snapshot dbA 1 (some 3) "Wave Completed" 70).wave_end_records.filter
        (fun r => r.session_id == 1 && r.wave_number == 3 && r.reason == "Wave Completed")).length
      = 1 ∧
    ((save_wave_end_snapshot dbA 1 (some 3) "Wave Completed" 70).player_wave_scores.filter
        (fun p => p.wave_end_id == dbA.nextWaveEndId)).length
      = (dbA.player_records.filter (fun p => p.session_id == 1)).length) :=
  ⟨by decide, by decide, by decide,
   C6_snapshot_idempotent dbA 1 3 "Wave Completed" 70 80 (by decide) (by decide) (by decide)⟩

/-- C1: starting from any state in which every server has at most one
`game_sessions` row with `active = true`, both one run of the lifecycle
engine (`get_active_session`, which closes the stored active session before
inserting a new one) and startup recovery (`cleanup_previous_sessions`)
preserve that invariant. -/
theorem C1_at_most_one_active_preserved (db : DB) (server_id : Nat) (map_name : String)
    (current_wave : Option String) (player_count max_players : Nat)
    (team_data : Option (Nat → Nat)) (now now2 : Int)
    (h : AtMostOneActive db) :
    AtMostOneActive (get_active_session db server_id map_name current_wave
      player_count max_players team_data now).1 ∧
    AtMostOneActive (cleanup_previous_sessions db now2) :=
  ⟨get_active_amoa db server_id map_name current_wave player_count max_players
      team_data now h,
   cleanup_amoa db now2 h⟩

/-- Witness for C1: a database with a single session row trivially satisfies
the invariant, and both operations preserve it. -/
theorem C1_witness :
    AtMostOneActive dbA ∧
    (AtMostOneActive (get_active_session dbA 1 "Farm" (some "Wave 1") 2 10 none 100).1 ∧
     AtMostOneActive (cleanup_previous_sessions dbA 100)) := by
  have hpre : AtMostOneActive dbA := by
    intro srv
    unfold activeRowsFor
    exact le_trans (List.length_filter_le _ _) (by rfl)
  exact ⟨hpre, C1_at_most_one_active_preserved dbA 1 "Farm" (some "Wave 1") 2 10 none
    100 100 hpre⟩

/-- C8: the claim says startup recovery closes every session still marked
active (result "Incomplete - Server Restart"), snapshots it with reason
"Server Restart" and folds its stats, leaving no active session, before the
polling threads start.  The code does none of this: on a store with an
active session, `cleanup_previous_sessions` raises `AttributeError` at
`session.get('wave_number')` (a `sqlite3.Row` has no `.get`) on the first
iteration, before its first `UPDATE`, and the blanket handler swallows the
error.  Concretely, on a store with one active session and one non-bot
player, `monitor_start` returns the store unchanged: the session is still
active, no wave-end snapshot exists and the player's stats are not folded. -/
theorem C8_counterexample_recovery_aborts :
    sessA ∈ dbA.game_sessions ∧ sessA.is_active = true ∧
    monitor_start dbA 100 = dbA ∧
    (∃ r ∈ (monitor_start dbA 100).game_sessions, r.is_active = true) ∧
    (monitor_start dbA 100).wave_end_records = [] ∧
    sessionCountOf (monitor_start dbA 100) prA.steam_id
      = sessionCountOf dbA prA.steam_id :=
  ⟨List.mem_cons_self _ _, rfl, rfl,
   ⟨sessA, List.mem_cons_self _ _, rfl⟩, rfl, rfl⟩

/-- C2: for an active session on the snapshot's map with known stored wave
`pw` and parsed wave `cw`, `cw < pw`, the engine closes the session (result
suffixed " - Round Restarted", wave-end snapshot for `pw` with reason
"Round Restarted") and creates a new session exactly when some prior
`server_status` record of the session already recorded `cw` or `cw = 1`;
otherwise it keeps the same session open and emits no boundary event. -/
theorem C2_wave_regression (db : DB) (server_id : Nat) (map_name : String)
    (current_wave : Option String) (pc mp : Nat) (td : Option (Nat → Nat)) (now : Int)
    (s : SessionRow) (cw pw : Nat)
    (hq1 : latest_active_session db server_id = some s)
    (hq2 : latest_active_session_on_map db server_id map_name = some s)
    (hmap : s.map_name = map_name)
    (hend : s.end_time = none)
    (hparse : extract_wave_number current_wave = some cw)
    (hpw : s.wave_number = some pw)
    (hlt : cw < pw)
    (hfind : sessionById db s.id = some s)
    (hpos : s.id ≠ 0)
    (hfresh : ∀ r ∈ db.game_sessions, r.id < db.nextSessionId) :
    ((0 < same_wave_count db s.id cw ∨ cw = 1) →
      ((sessionById (get_active_session db server_id map_name current_wave pc mp td now).1 s.id).map
          (fun r => (r.is_active, r.session_result))
        = some (false, some (determine_session_result db s.id (some pw) ++ " - Round Restarted"))) ∧
      (∃ w ∈ (get_active_session db server_id map_name current_wave pc mp td now).1.wave_end_records,
        w.session_id = s.id ∧ w.wave_number = pw ∧ w.reason = "Round Restarted") ∧
      (get_active_session db server_id map_name current_wave pc mp td now).2 = db.nextSessionId ∧
      (get_active_session db server_id map_name current_wave pc mp td now).2 ≠ s.id ∧
      (∃ r ∈ (get_active_session db server_id map_name current_wave pc mp td now).1.game_sessions,
        r.id = db.nextSessionId ∧ r.is_active = true ∧ r.server_id = server_id ∧
        r.map_name = map_name)) ∧
    (¬(0 < same_wave_count db s.id cw ∨ cw = 1) →
      (get_active_session db server_id map_name current_wave pc mp td now).2 = s.id ∧
      (get_active_session db server_id map_name current_wave pc mp td now).1.wave_end_records
        = db.wave_end_records ∧
      ((sessionById (get_active_session db server_id map_name current_wave pc mp td now).1 s.id).map
          (fun r => r.is_active) = some true)) := by
  have hred := engine_regression_reduce db server_id map_name current_wave pc mp td now
    s cw pw hq1 hq2 hmap hend hparse hpw hlt
  constructor
  · intro hcond
    rw [hred, if_pos hcond]
    have h3 : (fold_session_stats
        (save_wave_end_snapshot
          (close_session_result db s.id now
            (determine_session_result db s.id (some pw) ++ " - Round Restarted"))
          s.id (some pw) "Round Restarted" now) s.id now).game_sessions.find?
          (fun x => x.id == s.id)
        = some { s with
            is_active := false
            end_time := some now
            session_result := some
              (determine_session_result db s.id (some pw) ++ " - Round Restarted") } := by
      rw [fold_gs, snapshot_gs]
      exact close_result_find db s.id now _ s hfind
    refine ⟨?_, ?_, ?_, ?_, ?_⟩
    · rw [nsb_find_closed _ _ _ _ _ _ _ _ _ _ _ h3]
      rfl
    · rw [nsb_some_wer, fold_wer]
      exact snapshot_ensures _ s.id pw "Round Restarted" now hpos
    · rw [nsb_some_snd, fold_nsid, snapshot_nsid, close_result_nsid]
    · rw [nsb_some_snd, fold_nsid, snapshot_nsid, close_result_nsid]
      have hmem := List.mem_of_find?_eq_some hfind
      have := hfresh s hmem
      omega
    · rcases nsb_new_row_mem (fold_session_stats
          (save_wave_end_snapshot
            (close_session_result db s.id now
              (determine_session_result db s.id (some pw) ++ " - Round Restarted"))
            s.id (some pw) "Round Restarted" now) s.id now)
          s.id server_id map_name now mp pc current_wave (some cw) td with
        ⟨r, hr, hid, hact, hsv, hmp, _⟩
      refine ⟨r, hr, ?_, hact, hsv, hmp⟩
      rw [hid, fold_nsid, snapshot_nsid, close_result_nsid]
  · intro hcond
    rw [hred, if_neg hcond]
    refine ⟨continue_snd _ _ _ _ _ _, continue_wer _ _ _ _ _ _, ?_⟩
    rw [continue_find_active db s current_wave (some cw) pc td hfind]
    have hs := maxBy_mem _ _ _ hq2
    rw [List.mem_filter] at hs
    have hs2 := hs.2
    rw [Bool.and_eq_true, Bool.and_eq_true] at hs2
    rw [hs2.2]

/-- Witness for C2: the regression 3→1 on a matching map (prior record not
needed since `cw = 1`) closes the old session with "- Round Restarted" and
creates session 2. -/
theorem C2_witness :
    (extract_wave_number (some "Wave 1") = some 1 ∧ (1 : Nat) < 3 ∧
      latest_active_session dbA 1 = some sessA) ∧
    (((0 < same_wave_count dbA sessA.id 1 ∨ (1 : Nat) = 1) →
      ((sessionById (get_active_session dbA 1 "Farm" (some "Wave 1") 2 10 none 100).1 sessA.id).map
          (fun r => (r.is_active, r.session_result))
        = some (false, some (determine_session_result dbA sessA.id (some 3) ++ " - Round Restarted"))) ∧
      (∃ w ∈ (get_active_session dbA 1 "Farm" (some "Wave 1") 2 10 none 100).1.wave_end_records,
        w.session_id = sessA.id ∧ w.wave_number = 3 ∧ w.reason = "Round Restarted") ∧
      (get_active_session dbA 1 "Farm" (some "Wave 1") 2 10 none 100).2 = dbA.nextSessionId ∧
      (get_active_session dbA 1 "Farm" (some "Wave 1") 2 10 none 100).2 ≠ sessA.id ∧
      (∃ r ∈ (get_active_session dbA 1 "Farm" (some "Wave 1") 2 10 none 100).1.game_sessions,
        r.id = dbA.nextSessionId ∧ r.is_active = true ∧ r.server_id = 1 ∧
        r.map_name = "Farm")) ∧
    (¬(0 < same_wave_count dbA sessA.id 1 ∨ (1 : Nat) = 1) →
      (get_active_session dbA 1 "Farm" (some "Wave 1") 2 10 none 100).2 = sessA.id ∧
      (get_active_session dbA 1 "Farm" (some "Wave 1") 2 10 none 100).1.wave_end_records
        = dbA.wave_end_records ∧
      ((sessionById (get_active_session dbA 1 "Farm" (some "Wave 1") 2 10 none 100).1 sessA.id).map
          (fun r => r.is_active) = some true))) :=
  ⟨⟨rfl, by decide, rfl⟩,
   C2_wave_regression dbA 1 "Farm" (some "Wave 1") 2 10 none 100 sessA 1 3
     rfl rfl rfl rfl rfl rfl (by decide) rfl (by decide) (by decide)⟩

/-- C4 (amended): for an active session on a matching map with the stored or
parsed wave index unknown, the engine closes the session with result
"Loss - Timeout" and emits a wave-end snapshot with reason "Timeout" exactly
when the most recent populated status record is older than 15 minutes
(900 s); in that case the replacement session is created immediately within
the same call (not on the next cycle).  When the threshold is not exceeded,
or no populated status record exists, nothing is closed or recorded. -/
theorem C4_timeout_closure_iff (db : DB) (server_id : Nat) (map_name : String)
    (current_wave : Option String) (pc mp : Nat) (td : Option (Nat → Nat)) (now : Int)
    (s : SessionRow) (cwn : Option Nat)
    (hq1 : latest_active_session db server_id = some s)
    (hq2 : latest_active_session_on_map db server_id map_name = some s)
    (hmap : s.map_name = map_name)
    (hend : s.end_time = none)
    (hcwn : extract_wave_number current_wave = cwn)
    (hwave : cwn = none ∨ s.wave_number = none)
    (hfind : sessionById db s.id = some s)
    (hpos : s.id ≠ 0)
    (hfresh : ∀ r ∈ db.game_sessions, r.id < db.nextSessionId) :
    (∀ st, last_active_status db s.id = some st → 900 < now - st.timestamp →
      ((sessionById (get_active_session db server_id map_name current_wave pc mp td now).1 s.id).map
          (fun r => (r.is_active, r.session_result))
        = some (false, some "Loss - Timeout")) ∧
      (∃ w ∈ (get_active_session db server_id map_name current_wave pc mp td now).1.wave_end_records,
        w.session_id = s.id ∧ w.wave_number = s.wave_number.getD 0 ∧ w.reason = "Timeout") ∧
      (get_active_session db server_id map_name current_wave pc mp td now).2 = db.nextSessionId ∧
      (get_active_session db server_id map_name current_wave pc mp td now).2 ≠ s.id ∧
      (∃ r ∈ (get_active_session db server_id map_name current_wave pc mp td now).1.game_sessions,
        r.id = db.nextSessionId ∧ r.is_active = true ∧ r.server_id = server_id ∧
        r.map_name = map_name ∧ r.start_time = now)) ∧
    (∀ st, last_active_status db s.id = some st → ¬(900 < now - st.timestamp) →
      (get_active_session db server_id map_name current_wave pc mp td now).2 = s.id ∧
      (get_active_session db server_id map_name current_wave pc mp td now).1.wave_end_records
        = db.wave_end_records ∧
      ((sessionById (get_active_session db server_id map_name current_wave pc mp td now).1 s.id).map
          (fun r => r.is_active) = some true)) ∧
    (last_active_status db s.id = none →
      (get_active_session db server_id map_name current_wave pc mp td now).2 = s.id ∧
      (get_active_session db server_id map_name current_wave pc mp td now).1.wave_end_records
        = db.wave_end_records ∧
      ((sessionById (get_active_session db server_id map_name current_wave pc mp td now).1 s.id).map
          (fun r => r.is_active) = some true)) := by
  have hred := engine_unknown_wave_reduce db server_id map_name current_wave pc mp td now
    s cwn hq1 hq2 hmap hend hcwn hwave
  have hact : s.is_active = true := by
    have hs := maxBy_mem _ _ _ hq2
    rw [List.mem_filter] at hs
    have hs2 := hs.2
    rw [Bool.and_eq_true, Bool.and_eq_true] at hs2
    exact hs2.2
  refine ⟨?_, ?_, ?_⟩
  · intro st hlast htime
    rw [hred, hlast]
    dsimp only
    rw [if_pos htime]
    have h3 : (save_wave_end_snapshot
        (close_session_result db s.id now "Loss - Timeout")
        s.id (some (s.wave_number.getD 0)) "Timeout" now).game_sessions.find?
          (fun x => x.id == s.id)
        = some { s with
            is_active := false
            end_time := some now
            session_result := some "Loss - Timeout" } := by
      rw [snapshot_gs]
      exact close_result_find db s.id now _ s hfind
    refine ⟨?_, ?_, ?_, ?_, ?_⟩
    · rw [nsb_find_closed _ _ _ _ _ _ _ _ _ _ _ h3]
      rfl
    · rw [nsb_some_wer]
      exact snapshot_ensures _ s.id (s.wave_number.getD 0) "Timeout" now hpos
    · rw [nsb_some_snd, snapshot_nsid, close_result_nsid]
    · rw [nsb_some_snd, snapshot_nsid, close_result_nsid]
      have hmem := List.mem_of_find?_eq_some hfind
      have := hfresh s hmem
      omega
    · rcases nsb_new_row_mem (save_wave_end_snapshot
          (close_session_result db s.id now "Loss - Timeout")
          s.id (some (s.wave_number.getD 0)) "Timeout" now)
          s.id server_id map_name now mp pc current_wave cwn td with
        ⟨r, hr, hid, hactr, hsv, hmp, hst⟩
      refine ⟨r, hr, ?_, hactr, hsv, hmp, hst⟩
      rw [hid, snapshot_nsid, close_result_nsid]
  · intro st hlast htime
    rw [hred, hlast]
    dsimp only
    rw [if_neg htime]
    refine ⟨continue_snd _ _ _ _ _ _, continue_wer _ _ _ _ _ _, ?_⟩
    rw [continue_find_active db s current_wave cwn pc td hfind, hact]
  · intro hlast
    rw [hred, hlast]
    refine ⟨continue_snd _ _ _ _ _ _, continue_wer _ _ _ _ _ _, ?_⟩
    rw [continue_find_active db s current_wave cwn pc td hfind, hact]

/-- Witness for C4: the timeout database, 1000 seconds after the last
populated status record. -/
theorem C4_witness :
    (last_active_status dbT 1 = some ⟨1, 0, 2, none⟩ ∧ (900 : Int) < 1000 - 0) ∧
    (((sessionById (get_active_session dbT 1 "Farm" none 2 10 none 1000).1 1).map
        (fun r => (r.is_active, r.session_result))
      = some (false, some "Loss - Timeout")) ∧
    (∃ w ∈ (get_active_session dbT 1 "Farm" none 2 10 none 1000).1.wave_end_records,
      w.session_id = 1 ∧ w.wave_number = (none : Option Nat).getD 0 ∧ w.reason = "Timeout") ∧
    (get_active_session dbT 1 "Farm" none 2 10 none 1000).2 = dbT.nextSessionId ∧
    (get_active_session dbT 1 "Farm" none 2 10 none 1000).2 ≠ 1 ∧
    (∃ r ∈ (get_active_session dbT 1 "Farm" none 2 10 none 1000).1.game_sessions,
      r.id = dbT.nextSessionId ∧ r.is_active = true ∧ r.server_id = 1 ∧
      r.map_name = "Farm" ∧ r.start_time = 1000)) :=
  ⟨⟨rfl, by decide⟩,
   (C4_timeout_closure_iff dbT 1 "Farm" none 2 10 none 1000
       { sessA with wave_number := none, wave_text := none } none
       rfl rfl rfl rfl rfl (Or.inl rfl) rfl (by decide) (by decide)).1
     ⟨1, 0, 2, none⟩ rfl (by decide)⟩

/-- C7: at session close, the score added to a non-bot player's cumulative
total is the sum of `final_score - initial_score` over the player's stints
in the session, falling back to the raw current score when the player has no
stints; distinctness of steam/row ids among the session's non-bot records is
the schema's uniqueness constraint. -/
theorem C7_session_score_added (db : DB) (sid : Nat) (t : Int) (p : PlayerRecordRow)
    (hsid : sid ≠ 0) (hmem : p ∈ db.player_records) (hsess : p.session_id = sid)
    (hbot : p.is_bot = false)
    (hpair : (db.player_records.filter
        (fun q => q.session_id == sid && !q.is_bot)).Pairwise
        (fun a b => a.steam_id ≠ b.steam_id ∧ a.id ≠ b.id)) :
    totalScoreOf (update_player_playtimes db sid t) p.steam_id
      = totalScoreOf db p.steam_id +
        (if (stintsFor db p.id sid).isEmpty then p.current_score
         else ((stintsFor db p.id sid).map
            (fun ts => ts.final_score - ts.initial_score)).sum) :=
  (playtimes_obs db sid t p hsid hmem hsess hbot hpair).1

/-- Witness for C7: with stints (10,40) and (40,55) the fold adds
(40-10)+(55-40) = 45, the spec's worked example. -/
theorem C7_witness :
    ((1 : Nat) ≠ 0 ∧ prC ∈ dbC.player_records ∧ prC.session_id = 1 ∧
      prC.is_bot = false ∧
      (dbC.player_records.filter
        (fun q => q.session_id == 1 && !q.is_bot)).Pairwise
        (fun a b => a.steam_id ≠ b.steam_id ∧ a.id ≠ b.id)) ∧
    totalScoreOf (update_player_playtimes dbC 1 200) prC.steam_id
      = totalScoreOf dbC prC.steam_id +
        (if (stintsFor dbC prC.id 1).isEmpty then prC.current_score
         else ((stintsFor dbC prC.id 1).map
            (fun ts => ts.final_score - ts.initial_score)).sum) ∧
    totalScoreOf dbC prC.steam_id +
        (if (stintsFor dbC prC.id 1).isEmpty then prC.current_score
         else ((stintsFor dbC prC.id 1).map
            (fun ts => ts.final_score - ts.initial_score)).sum) = 45 :=
  ⟨⟨by decide, by decide, by decide, by decide, by decide⟩,
   C7_session_score_added dbC 1 200 prC (by decide) (by decide) (by decide)
     (by decide) (by decide),
   by decide⟩

/-- C9 (counterexample): the fold computes `last_seen - first_seen` with no
clamp; for a player first seen at t=10 and last seen at t=5 the playtime
added to the cumulative total is -5, which is negative — the claim's
"never negative, clamped to zero" does not hold on the code. -/
theorem C9_counterexample_negative_playtime :
    totalPlaytimeOf (update_player_playtimes dbN 1 100) "p9" = -5 ∧
    ¬((0 : Int) ≤ -5) :=
  ⟨rfl, by decide⟩

/-- C9 (amended): at session close, the playtime added to a non-bot player's
cumulative total equals `last_seen - first_seen` in whole seconds, with no
clamping: the contribution is negative whenever `last_seen` precedes
`first_seen`. -/
theorem C9_playtime_added (db : DB) (sid : Nat) (t : Int) (p : PlayerRecordRow)
    (hsid : sid ≠ 0) (hmem : p ∈ db.player_records) (hsess : p.session_id = sid)
    (hbot : p.is_bot = false)
    (hpair : (db.player_records.filter
        (fun q => q.session_id == sid && !q.is_bot)).Pairwise
        (fun a b => a.steam_id ≠ b.steam_id ∧ a.id ≠ b.id)) :
    totalPlaytimeOf (update_player_playtimes db sid t) p.steam_id
      = totalPlaytimeOf db p.steam_id + (p.last_seen - p.first_seen) :=
  (playtimes_obs db sid t p hsid hmem hsess hbot hpair).2.1

/-- Witness for C9's amended statement: the negative-playtime database. -/
theorem C9_witness :
    ((1 : Nat) ≠ 0 ∧ prN ∈ dbN.player_records ∧ prN.session_id = 1 ∧
      prN.is_bot = false ∧
      (dbN.player_records.filter
        (fun q => q.session_id == 1 && !q.is_bot)).Pairwise
        (fun a b => a.steam_id ≠ b.steam_id ∧ a.id ≠ b.id)) ∧
    totalPlaytimeOf (update_player_playtimes dbN 1 100) prN.steam_id
      = totalPlaytimeOf dbN prN.steam_id + (prN.last_seen - prN.first_seen) :=
  ⟨⟨by decide, by decide, by decide, by decide, by decide⟩,
   C9_playtime_added dbN 1 100 prN (by decide) (by decide) (by decide)
     (by decide) (by decide)⟩

end Monitor
